import Mathlib

/-!
Verification development for the multi-source lineup/referee resolution
pipeline (src/data/multi_source_fetcher.py, src/data/scrapers/*.py,
src/data/auto_lineup_fetcher.py, src/data/mock_provider.py).

The Python code is shallowly embedded: Python dicts become association
lists over a `PyVal` value type, network/parse outcomes become explicit
oracle environments, the process-wide random generator becomes an explicit
`rng : Nat` state, and `hashlib.md5(...).hexdigest()` interpreted as an
integer becomes an abstract pure function `md5int : String → Nat` (its
purity — the same string always hashes to the same integer — is all the
claims depend on).
-/

namespace Antigravity

/-! ### Python string primitives

Structural-recursion re-implementations of the Python string operations
used by the embedded code (`lower`, `strip`, `split`, `replace`, `in`),
so that all proofs reduce in the kernel. -/

/-- Lowercase one character the way Python `str.lower` does on the
characters appearing in this repository (ASCII plus the Spanish
accented capitals). -/
def charLower (c : Char) : Char :=
  if c = 'Á' then 'á' else if c = 'É' then 'é' else if c = 'Í' then 'í'
  else if c = 'Ó' then 'ó' else if c = 'Ú' then 'ú' else if c = 'Ñ' then 'ñ'
  else if c = 'Ü' then 'ü' else c.toLower

/-- Python `s.lower()`. -/
def pyLower (s : String) : String := String.mk (s.data.map charLower)

/-- Python `s.strip()` (strip leading and trailing whitespace). -/
def pyTrim (s : String) : String :=
  String.mk (((s.data.dropWhile Char.isWhitespace).reverse.dropWhile Char.isWhitespace).reverse)

/-- Whether `pat` is a prefix of `s` (character lists). -/
def listPre : List Char → List Char → Bool
  | [], _ => true
  | _ :: _, [] => false
  | p :: ps, c :: cs => p = c && listPre ps cs

/-- Whether `pat` occurs as a contiguous substring of `s` (character lists). -/
def listContainsSub (pat : List Char) : List Char → Bool
  | [] => pat.isEmpty
  | c :: cs => listPre pat (c :: cs) || listContainsSub pat cs

/-- Python `pat in s` (substring containment). -/
def containsSub (s pat : String) : Bool := listContainsSub pat.data s.data

/-- Fuel-indexed worker for `pyReplace` (fuel bounds the scan length, so the
recursion is structural and kernel-reducible). -/
def pyReplaceAux (pat rep : List Char) : Nat → List Char → List Char
  | _, [] => []
  | 0, s => s
  | fuel + 1, c :: cs =>
    if listPre pat (c :: cs) then
      rep ++ pyReplaceAux pat rep fuel ((c :: cs).drop pat.length)
    else
      c :: pyReplaceAux pat rep fuel cs

/-- Python `s.replace(pat, rep)` for a nonempty pattern (replaces every
non-overlapping occurrence, scanning left to right). -/
def pyReplace (s pat rep : String) : String :=
  if pat.data.isEmpty then s
  else String.mk (pyReplaceAux pat.data rep.data s.data.length s.data)

/-- Worker for `pyWords`: splits on whitespace runs, accumulating the
current word (reversed) in `acc`. -/
def pyWordsAux : List Char → List Char → List String
  | [], acc => if acc.isEmpty then [] else [String.mk acc.reverse]
  | c :: cs, acc =>
    if c.isWhitespace then
      if acc.isEmpty then pyWordsAux cs [] else String.mk acc.reverse :: pyWordsAux cs []
    else
      pyWordsAux cs (c :: acc)

/-- Python `s.split()` with no argument: whitespace-separated words,
empty strings dropped. -/
def pyWords (s : String) : List String := pyWordsAux s.data []

/-- Python `s.split("(")[0]`: the prefix of `s` before the first
opening parenthesis (the whole of `s` when there is none). -/
def beforeParen (s : String) : String := String.mk (s.data.takeWhile (fun c => c ≠ '('))

/-! ### Python values and dicts -/

/-- Referee strictness levels, from `src/models/base.py` (the enum's
human-readable string payloads are irrelevant to the claims and omitted). -/
inductive RefereeStrictness where
  | HIGH
  | MEDIUM
  | LOW
deriving DecidableEq, Repr

/-- The value type of the Python dicts flowing through the fetcher layer:
`None`, strings, booleans, rationals (for the card averages, which are only
stored and compared, never rounded), lists of strings, and referee
strictness levels. -/
inductive PyVal where
  | pyNone
  | pyStr (s : String)
  | pyBool (b : Bool)
  | pyRat (q : ℚ)
  | pyList (xs : List String)
  | pyStrict (r : RefereeStrictness)
deriving DecidableEq, Repr

/-- A Python dict with string keys, as an association list (keys are unique
in every dict the code builds; lookup returns the first match). -/
abbrev PyDict := List (String × PyVal)

/-- Python `d[k]` as a partial lookup: `none` models a `KeyError`. -/
def pyGet (d : PyDict) (k : String) : Option PyVal :=
  match d with
  | [] => none
  | (k', v) :: rest => if k' = k then some v else pyGet rest k

/-- Whether the dict has the key. -/
def hasKey (d : PyDict) (k : String) : Bool := (pyGet d k).isSome

/-- Python `d.setdefault(k, v)`: leaves the dict unchanged when `k` is
present (even when it maps to `None`), otherwise appends `k ↦ v`. -/
def pySetdefault (d : PyDict) (k : String) (v : PyVal) : PyDict :=
  if hasKey d k then d else d ++ [(k, v)]

/-- Python `d[k] = v`: replaces the binding in place, or appends it. -/
def pySet : PyDict → String → PyVal → PyDict
  | [], k, v => [(k, v)]
  | (k', v') :: rest, k, v =>
    if k' = k then (k, v) :: rest else (k', v') :: pySet rest k v

/-- Python truthiness of a value: `None`, `False`, `""` and `[]` are falsy. -/
def pyTruthy : Option PyVal → Bool
  | some (.pyStr s) => !s.isEmpty
  | some (.pyBool b) => b
  | some (.pyRat q) => q ≠ 0
  | some (.pyList xs) => !xs.isEmpty
  | some (.pyStrict _) => true
  | some .pyNone => false
  | none => false

/-- Strict Python `d[k]`: a missing key is a raised `KeyError`, modelled in
the `Except` error monad. -/
def pyIndex (d : PyDict) (k : String) : Except String PyVal :=
  match pyGet d k with
  | some v => .ok v
  | none => .error ("KeyError: " ++ k)

/-- Python `len(v)` for a list value; any other value is a `TypeError`. -/
def pyLen : PyVal → Except String Nat
  | .pyList xs => .ok xs.length
  | _ => .error "TypeError: object has no len"

/-! ### League normalizer and scraper factory
(`_normalize_league` and `_get_scraper` in `src/data/multi_source_fetcher.py`). -/

/-- Embedding of `_normalize_league`: lowercase and strip, drop a
parenthetical suffix, drop the sponsor tokens, then match substring
aliases; unmatched input is returned as cleaned (NOT mapped to a
distinguished value). -/
def _normalize_league (league : String) : String :=
  if league.isEmpty then ""
  else
    let norm := pyTrim (pyLower league)
    let norm := if containsSub norm "(" then pyTrim (beforeParen norm) else norm
    let norm := pyTrim (pyReplace (pyReplace norm "ea sports" "") "santander" "")
    if containsSub norm "la liga" || containsSub norm "primera" ||
       containsSub norm "espana" || containsSub norm "españa" then "La Liga"
    else if containsSub norm "premier" || containsSub norm "england" then "Premier League"
    else if containsSub norm "serie a" || containsSub norm "italy" || containsSub norm "italia" then "Serie A"
    else if containsSub norm "bundesliga" || containsSub norm "germany" || containsSub norm "german" then "Bundesliga"
    else if containsSub norm "ligue 1" || containsSub norm "france" || containsSub norm "liga 1" then "Ligue 1"
    else norm

/-- The closed set of scrapers `_get_scraper` can instantiate. -/
inductive ScraperKind where
  | laLiga
  | premier
  | serieA
  | bundesliga
  | ligue1
  | generic
deriving DecidableEq, Repr

/-- Embedding of the dispatch in `_get_scraper`: which scraper class the
factory instantiates for a league string. -/
def scraperKindFor (league : String) : ScraperKind :=
  let norm := _normalize_league league
  if norm = "La Liga" then .laLiga
  else if norm = "Premier League" then .premier
  else if norm = "Serie A" then .serieA
  else if norm = "Bundesliga" then .bundesliga
  else if norm = "Ligue 1" then .ligue1
  else .generic

/-! ### Roster data model and MockDataProvider
(`src/models/base.py`, `src/data/mock_provider.py`). The claims consume
only player names; the numeric attributes `_create_team` attaches to each
`Player` (ratings, xG, ... drawn from `random.uniform`) are never read by
the resolution pipeline and are omitted from the embedding. -/

/-- A canonical roster player (name only; see the section comment). -/
structure Player where
  name : String
deriving DecidableEq, Repr

/-- A team as stored by the provider. -/
structure Team where
  name : String
  league : String
  players : List Player
deriving DecidableEq, Repr

/-- Embedding of `MockDataProvider._create_team`: builds `Player` objects
from the first 11 key-player names. -/
def _create_team (name league : String) (key_players : List String) : Team :=
  { name := name, league := league,
    players := (key_players.take 11).map (fun p => { name := p }) }

/-- The 11 placeholder names `_create_dummy_team` generates for a team. -/
def dummy_key_players (name : String) : List String :=
  [name ++ " GK",
   name ++ " LD", name ++ " CT1", name ++ " CT2", name ++ " LI",
   name ++ " MC1", name ++ " MC2", name ++ " MO",
   name ++ " ED", name ++ " DC", name ++ " EI"]

/-- Embedding of `MockDataProvider._create_dummy_team`: the generic
11-player fill used for teams that are not in the store. -/
def _create_dummy_team (name league : String) : Team :=
  _create_team name league (dummy_key_players name)

/-- The provider's `teams_db` dict as an association list. `_init_teams`
populates it with the five leagues' teams; the claims never depend on its
exact contents, only on lookup hits and misses, so it stays a parameter. -/
structure MockDataProvider where
  teams_db : List (String × Team)

/-- Embedding of `MockDataProvider.get_team_data`: an empty team name is
replaced by a placeholder, then a dict lookup with a generated dummy team
as the default. -/
def get_team_data (p : MockDataProvider) (team_name : String) : Team :=
  let tn := if team_name.isEmpty then "Equipo Desconocido" else team_name
  (p.teams_db.lookup tn).getD (_create_dummy_team tn "Unknown")

/-- Embedding of `MockDataProvider.get_last_match_lineup`: the names of the
first 11 roster players, or `[]` when the roster is empty (the `not team`
half of the Python guard is vacuous — `get_team_data` always returns an
object, and objects are truthy). -/
def get_last_match_lineup (p : MockDataProvider) (team_name : String) : List String :=
  let team := get_team_data p team_name
  if team.players.isEmpty then [] else (team.players.take 11).map Player.name

/-! ### Entity resolver (`src/data/auto_lineup_fetcher.py`).

`extracted_names` is a Python `set`; it is embedded as a list enumerating
the set. Both mapping functions either dedup during accumulation or pass
the result through `sorted(list(set(...)))`, so the output is independent
of the enumeration order chosen. -/

/-- Tokenize a name as the fuzzy matcher does: lowercase, split on
whitespace (Python builds a `set`, but only subset/intersection tests are
applied, for which the word list is equivalent). -/
def tokenSet (s : String) : List String := pyWords (pyLower s)

/-- Python `a.issubset(b)` on token sets. -/
def subsetB (a b : List String) : Bool := a.all (fun x => b.contains x)

/-- Python `len(a.intersection(b)) >= 1` on token sets. -/
def intersects (a b : List String) : Bool := a.any (fun x => b.contains x)

/-- The inner loop shared by both fuzzy matchers: the first roster player
whose token set is a subset/superset of the scraped tokens or overlaps
them wins. -/
def fuzzyScan (st : List String) (roster : List Player) : Option String :=
  roster.findSome? (fun p =>
    let pt := tokenSet p.name
    if subsetB pt st || subsetB st pt || intersects st pt then some p.name else none)

/-- The `fuzzy_match` closure of `_map_to_rosters` (guards against an empty
token set before scanning). -/
def fuzzy_match (scraped_name : String) (roster : List Player) : Option String :=
  let st := tokenSet scraped_name
  if st.isEmpty then none else fuzzyScan st roster

/-- The `fuzzy_match` closure of `_map_to_specific_rosters` (no empty-token
guard: an empty scraped name is a subset of every roster name's tokens and
so matches the first roster entry). -/
def fuzzy_match_specific (scraped_name : String) (roster : List Player) : Option String :=
  fuzzyScan (tokenSet scraped_name) roster

/-- Lexicographic code-point comparison on character lists (the order
Python's `sorted` uses on strings). -/
def charListLe : List Char → List Char → Bool
  | [], _ => true
  | _ :: _, [] => false
  | a :: as, b :: bs => if a = b then charListLe as bs else decide (a.toNat < b.toNat)

/-- Python string comparison `a <= b`. -/
def strLe (a b : String) : Bool := charListLe a.data b.data

/-- Insertion step of the string sort. -/
def insortStr (x : String) : List String → List String
  | [] => [x]
  | y :: ys => if strLe x y then x :: y :: ys else y :: insortStr x ys

/-- Python `sorted` on strings (lexicographic by code point). -/
def pySorted : List String → List String
  | [] => []
  | x :: xs => insortStr x (pySorted xs)

/-- Python `list(set(xs))`: the distinct elements (order is unspecified in
Python; every use below immediately sorts, so any canonical order is
faithful). -/
def setList : List String → List String
  | [] => []
  | x :: xs => let r := setList xs; if r.contains x then r else x :: r

/-- The accumulation loop of `_map_to_rosters`: append each fuzzy match
unless it is already collected (`if match and match not in found`; a
falsy — empty — match string is also skipped). -/
def accumMatches (roster : List Player) : List String → List String → List String
  | found, [] => found
  | found, n :: ns =>
    match fuzzy_match n roster with
    | some m =>
      if !m.isEmpty && !found.contains m then accumMatches roster (found ++ [m]) ns
      else accumMatches roster found ns
    | none => accumMatches roster found ns

/-- The result dict of `_map_to_rosters` (fixed shape). -/
structure ResolvedLineup where
  home : List String
  away : List String
  count : Nat
  status : String
deriving DecidableEq, Repr

/-- Embedding of `AutoLineupFetcher._map_to_rosters`. The data provider is
the `get_team_data` method of the injected provider; the `if team_home:`
guard tests object truthiness and the interface always returns a `Team`
instance, so it is always taken. Names that match neither roster are
dropped. -/
def _map_to_rosters (gtd : String → Team) (extracted_names : List String)
    (home_team away_team : String) : ResolvedLineup :=
  let team_home := gtd home_team
  let team_away := gtd away_team
  let found_home := accumMatches team_home.players [] extracted_names
  let found_away := accumMatches team_away.players [] extracted_names
  { home := pySorted found_home,
    away := pySorted found_away,
    count := found_home.length + found_away.length,
    status := if 18 ≤ found_home.length + found_away.length then "confirmed" else "predicted" }

/-- What `_map_to_specific_rosters` appends for one scraped name: the fuzzy
match when it is truthy, otherwise the raw scraped name kept verbatim. -/
def resolveSpecificName (roster : List Player) (n : String) : String :=
  match fuzzy_match_specific n roster with
  | some s => if s.isEmpty then n else s
  | none => n

/-- The result dict of `_map_to_specific_rosters` (fixed shape; it also
carries a `note`). -/
structure SpecificResolvedLineup where
  home : List String
  away : List String
  count : Nat
  status : String
  note : String
deriving DecidableEq, Repr

/-- Embedding of `AutoLineupFetcher._map_to_specific_rosters`: every
scraped name contributes an entry (canonical or verbatim), `count` and the
`status` threshold of 20 are computed on the pre-dedup lists, and the
output lists are `sorted(list(set(...)))`. -/
def _map_to_specific_rosters (gtd : String → Team)
    (home_scraped away_scraped : List String)
    (home_team away_team : String) : SpecificResolvedLineup :=
  let team_home := gtd home_team
  let team_away := gtd away_team
  let found_home := home_scraped.map (resolveSpecificName team_home.players)
  let found_away := away_scraped.map (resolveSpecificName team_away.players)
  let all_roster := (team_home.players ++ team_away.players).map Player.name
  { home := pySorted (setList found_home),
    away := pySorted (setList found_away),
    count := found_home.length + found_away.length,
    status := if 20 ≤ found_home.length + found_away.length then "confirmed" else "predicted",
    note := if (found_home ++ found_away).any (fun n => !all_roster.contains n) then
              "Nuevos jugadores detectados" else "" }

/-! ### Scraper layer (`src/data/scrapers/*.py`).

Network and HTML-parse outcomes are oracles collected in per-league
environment structures. Every helper wraps its network and parse work in
`try/except` blocks that reduce any failure to the helper's default value
(`None` or an initial dict), so a helper's oracle is the value the helper
would return after those catches; the helper functions below rebuild the
exact dicts the Python code constructs from the parsed pieces. -/

/-- A match date; the pipeline only ever consumes
`match_date.strftime("%Y%m%d")`, stored here pre-rendered. -/
structure PyDate where
  ymd : String
deriving DecidableEq, Repr

/-- The initial dict shared by all lineup helpers
(`result = {'home': [], 'away': [], 'bajas': [], 'source': None}`),
returned unchanged when the source fails. -/
def initLineupDict : PyDict :=
  [("home", .pyList []), ("away", .pyList []), ("bajas", .pyList []), ("source", .pyNone)]

namespace LaLiga

/-- Referee pool used as last resort (`LALIGA_REFEREE_POOL`). -/
def LALIGA_REFEREE_POOL : List (String × ℚ) :=
  [("Jesús Gil Manzano", 5.8), ("Sánchez Martínez", 4.5), ("Hernández Hernández", 5.5),
   ("Díaz de Mera", 3.8), ("Munuera Montero", 4.2), ("Del Cerro Grande", 4.0),
   ("Figueroa Vázquez", 4.3), ("Trujillo Suárez", 4.1)]

/-- Oracle environment for the La Liga scraper: one field per
source-helper outcome. `none` covers every internally-caught failure path
(unreachable page, match not found, parse exception). -/
structure Env where
  /-- Outcome of `_find_futbolfantasy_match_url` (used by both the lineup
  and the referee FutbolFantasy helpers). -/
  ffMatchUrl : Option String
  /-- Parse outcome of the FutbolFantasy match page for lineups:
  (home players, away players, bajas), before the `[:11]` caps. -/
  ffLineupParse : Option (List String × List String × List String)
  /-- Outcome of `fetch_lineup_rf`: (home players, away players, lineup
  page URL) on success. -/
  rfLineup : Option (List String × List String × String)
  /-- Referee name parsed from the FutbolFantasy match page. -/
  ffRefName : Option String
  /-- Whether that name came from the text-search fallback branch (its
  `source` is tagged differently). -/
  ffRefTextVariant : Bool
  /-- Outcome of `fetch_referee_rf`: (name, match page URL). -/
  rfRef : Option (String × String)
  /-- Referee name matched on the RFEF designaciones page. -/
  rfefRefName : Option String
  /-- Outcome of `fetch_referee_besoccer`: (name, search URL). -/
  besoccerRef : Option (String × String)
deriving DecidableEq

/-- Embedding of `fetch_lineup_futbolfantasy`: the initial dict on any
failure, otherwise the dict updated with the capped player lists, the
bajas and the FutbolFantasy source tag. -/
def fetch_lineup_futbolfantasy (e : Env) : PyDict :=
  match e.ffMatchUrl with
  | none => initLineupDict
  | some match_url =>
    match e.ffLineupParse with
    | none => initLineupDict
    | some (hp, ap, bajas) =>
      [("home", .pyList (hp.take 11)), ("away", .pyList (ap.take 11)),
       ("bajas", .pyList bajas),
       ("source", .pyStr ("FutbolFantasy (" ++ match_url ++ ")")),
       ("verification_link", .pyStr match_url)]

/-- Embedding of `fetch_lineup_rf` (Resultados-Futbol lineups; a success
never touches `bajas`). -/
def fetch_lineup_rf (e : Env) : PyDict :=
  match e.rfLineup with
  | none => initLineupDict
  | some (hp, ap, l_url) =>
    [("home", .pyList (hp.take 11)), ("away", .pyList (ap.take 11)),
     ("bajas", .pyList []),
     ("source", .pyStr ("Resultados-Futbol (" ++ l_url ++ ")")),
     ("verification_link", .pyStr l_url)]

/-- Embedding of `fetch_referee_futbolfantasy` (needs the match URL, then
a parsed name; the text-search branch tags its source differently). -/
def fetch_referee_futbolfantasy (e : Env) : Option PyDict :=
  match e.ffMatchUrl with
  | none => none
  | some match_url =>
    e.ffRefName.map (fun n =>
      [("name", .pyStr n),
       ("source", .pyStr (if e.ffRefTextVariant then "FutbolFantasy (text)" else "FutbolFantasy")),
       ("verification_link", .pyStr match_url)])

/-- Embedding of `fetch_referee_rf`. -/
def fetch_referee_rf (e : Env) : Option PyDict :=
  e.rfRef.map (fun nu =>
    [("name", .pyStr nu.1), ("source", .pyStr "Resultados-Futbol"),
     ("verification_link", .pyStr nu.2)])

/-- RFEF designaciones URL (also the fallback pool's verification link). -/
def rfefUrl : String := "https://www.rfef.es/noticias/arbitros/designaciones"

/-- Embedding of `fetch_referee_rfef`. -/
def fetch_referee_rfef (e : Env) : Option PyDict :=
  e.rfefRefName.map (fun n =>
    [("name", .pyStr n), ("source", .pyStr "RFEF Oficial"),
     ("verification_link", .pyStr rfefUrl)])

/-- Embedding of `fetch_referee_besoccer`. -/
def fetch_referee_besoccer (e : Env) : Option PyDict :=
  e.besoccerRef.map (fun nu =>
    [("name", .pyStr nu.1), ("source", .pyStr "BeSoccer"),
     ("verification_link", .pyStr nu.2)])

/-- Referee names the enrichment step classifies as strict. -/
def strict_refs : List String := ["gil manzano", "hernández hernández", "mateu lahoz"]

/-- Referee names the enrichment step classifies as lenient. -/
def lenient_refs : List String := ["díaz de mera", "munuera montero", "del cerro grande", "trujillo"]

/-- Embedding of `LaLigaDataScraper._enrich_referee`: adds strictness,
card average and `_is_fallback = False` to a successful referee dict. -/
def _enrich_referee (ref : PyDict) : PyDict :=
  let name := match pyGet ref "name" with | some (.pyStr s) => s | _ => ""
  let name_l := pyLower name
  let sa : RefereeStrictness × ℚ :=
    if strict_refs.any (fun s => containsSub name_l s) then (.HIGH, 5.5)
    else if lenient_refs.any (fun s => containsSub name_l s) then (.LOW, 3.8)
    else (.MEDIUM, 4.3)
  pySet (pySet (pySet ref "strictness" (.pyStrict sa.1)) "avg_cards" (.pyRat sa.2))
    "_is_fallback" (.pyBool false)

/-- Embedding of `LaLigaDataScraper.fetch_lineup`: FutbolFantasy, then
Resultados-Futbol, each kept when its `home` or `away` list is truthy;
otherwise the no-data dict (which carries no `_is_fallback` key). -/
def fetch_lineup (e : Env) : PyDict :=
  let result := fetch_lineup_futbolfantasy e
  if pyTruthy (pyGet result "home") || pyTruthy (pyGet result "away") then result
  else
    let result := fetch_lineup_rf e
    if pyTruthy (pyGet result "home") || pyTruthy (pyGet result "away") then result
    else
      [("home", .pyList []), ("away", .pyList []), ("bajas", .pyList []),
       ("source", .pyStr "Sin datos (fuentes web requieren JS)"),
       ("verification_link", .pyNone)]

/-- Embedding of `LaLigaDataScraper.fetch_referee`: four sources in order,
each enriched on success; on total failure a pool entry picked by the md5
hash of `home-away-YYYYMMDD` (deterministic, unlike the other leagues). -/
def fetch_referee (e : Env) (md5int : String → Nat) (home away : String) (d : PyDate) : PyDict :=
  match fetch_referee_futbolfantasy e with
  | some ref => _enrich_referee ref
  | none =>
  match fetch_referee_rf e with
  | some ref => _enrich_referee ref
  | none =>
  match fetch_referee_rfef e with
  | some ref => _enrich_referee ref
  | none =>
  match fetch_referee_besoccer e with
  | some ref => _enrich_referee ref
  | none =>
    let match_id := home ++ "-" ++ away ++ "-" ++ d.ymd
    let idx := md5int match_id % LALIGA_REFEREE_POOL.length
    let fb := LALIGA_REFEREE_POOL.getD idx ("", 0)
    [("name", .pyStr fb.1), ("avg_cards", .pyRat fb.2),
     ("source", .pyStr "Pool LaLiga (fuentes no disponibles)"),
     ("verification_link", .pyStr rfefUrl),
     ("_is_fallback", .pyBool true)]

/-- The environment in which every La Liga source fails. -/
def allFail : Env :=
  { ffMatchUrl := none, ffLineupParse := none, rfLineup := none,
    ffRefName := none, ffRefTextVariant := false, rfRef := none,
    rfefRefName := none, besoccerRef := none }

/-- Whether all four referee sources of the cascade came back empty. -/
def refAllFail (e : Env) : Bool :=
  (fetch_referee_futbolfantasy e).isNone && (fetch_referee_rf e).isNone &&
  (fetch_referee_rfef e).isNone && (fetch_referee_besoccer e).isNone

end LaLiga

namespace Premier

/-- `PREMIER_REFEREE_POOL`. -/
def PREMIER_REFEREE_POOL : List (String × ℚ) :=
  [("Michael Oliver", 4.9), ("Anthony Taylor", 5.1), ("Craig Pawson", 3.4),
   ("Paul Tierney", 4.0), ("Simon Hooper", 4.2), ("John Brooks", 3.8),
   ("Robert Jones", 4.4)]

/-- Oracle environment for the Premier League scraper. -/
structure Env where
  /-- Parse outcome of the PremierInjuries table: (home availables, away
  availables, bajas). `none` is the caught-exception path. -/
  piParse : Option (List String × List String × List String)
  /-- Outcome of `fetch_referee_bbcsport`: (name, match URL). -/
  bbcRef : Option (String × String)
deriving DecidableEq

/-- The PremierInjuries table URL. -/
def piUrl : String := "https://www.premierinjuries.com/injury-table.php"

/-- Embedding of `fetch_lineup_premierinjuries`: the initial dict on
failure; on success the extracted lists plus source and verification link
(set even when the lists are empty). -/
def fetch_lineup_premierinjuries (e : Env) : PyDict :=
  match e.piParse with
  | none => initLineupDict
  | some (hp, ap, bajas) =>
    [("home", .pyList hp), ("away", .pyList ap), ("bajas", .pyList bajas),
     ("source", .pyStr ("PremierInjuries (" ++ piUrl ++ ")")),
     ("verification_link", .pyStr piUrl)]

/-- Embedding of `fetch_referee_bbcsport`. -/
def fetch_referee_bbcsport (e : Env) : Option PyDict :=
  e.bbcRef.map (fun nu =>
    [("name", .pyStr nu.1), ("source", .pyStr "BBC Sport"),
     ("verification_link", .pyStr nu.2)])

/-- Embedding of `PremierLeagueDataScraper._enrich_referee`. -/
def _enrich_referee (ref : PyDict) : PyDict :=
  let name := pyLower (match pyGet ref "name" with | some (.pyStr s) => s | _ => "")
  let sa : RefereeStrictness × ℚ :=
    if ["oliver", "taylor"].any (fun s => containsSub name s) then (.HIGH, 5.0)
    else if ["pawson", "brooks"].any (fun s => containsSub name s) then (.LOW, 3.4)
    else (.MEDIUM, 4.1)
  pySet (pySet (pySet ref "strictness" (.pyStrict sa.1)) "avg_cards" (.pyRat sa.2))
    "_is_fallback" (.pyBool false)

/-- Embedding of `PremierLeagueDataScraper.fetch_lineup`: the
PremierInjuries result is kept when its `bajas` list is truthy, otherwise
the no-data dict (again without an `_is_fallback` key). -/
def fetch_lineup (e : Env) : PyDict :=
  let result := fetch_lineup_premierinjuries e
  if pyTruthy (pyGet result "bajas") then result
  else
    [("home", .pyList []), ("away", .pyList []), ("bajas", .pyList []),
     ("source", .pyStr "Sin datos (requiere JS)"),
     ("verification_link", .pyStr piUrl)]

/-- Embedding of `PremierLeagueDataScraper.fetch_referee`: BBC Sport, else
`random.choice` over the pool — modelled as indexing by the process RNG
state, which differs between calls. -/
def fetch_referee (e : Env) (rng : Nat) : PyDict :=
  match fetch_referee_bbcsport e with
  | some ref => _enrich_referee ref
  | none =>
    let fb := PREMIER_REFEREE_POOL.getD (rng % PREMIER_REFEREE_POOL.length) ("", 0)
    [("name", .pyStr fb.1), ("avg_cards", .pyRat fb.2),
     ("source", .pyStr "Pool Premier League (fuentes no disponibles)"),
     ("verification_link", .pyStr "https://www.premierleague.com/referees/overview"),
     ("_is_fallback", .pyBool true)]

/-- The all-sources-fail environment. -/
def allFail : Env := { piParse := none, bbcRef := none }

end Premier

namespace SerieA

/-- `SERIE_A_REFEREE_POOL`. -/
def SERIE_A_REFEREE_POOL : List (String × ℚ) :=
  [("Daniele Orsato", 5.3), ("Marco Guida", 3.6), ("Davide Massa", 4.4),
   ("Maurizio Mariani", 4.1), ("Luca Pairetto", 4.0), ("Gianluca Manganiello", 4.7)]

/-- Oracle environment for the Serie A scraper. -/
structure Env where
  /-- Parse outcome of the Fantacalcio page: (home players, away players),
  before the `[:11]` caps. -/
  faParse : Option (List String × List String)
  /-- Referee name matched on the AIA-FIGC page. -/
  aiaRefName : Option String
deriving DecidableEq

/-- Fantacalcio probable-lineups URL. -/
def faUrl : String := "https://www.fantacalcio.it/probabili-formazioni-serie-a"

/-- AIA-FIGC designations URL. -/
def aiaUrl : String := "https://www.aia-figc.it/designazioni/cana/"

/-- Embedding of `fetch_lineup_fantacalcio` (a success never touches
`bajas`). -/
def fetch_lineup_fantacalcio (e : Env) : PyDict :=
  match e.faParse with
  | none => initLineupDict
  | some (hp, ap) =>
    [("home", .pyList (hp.take 11)), ("away", .pyList (ap.take 11)),
     ("bajas", .pyList []),
     ("source", .pyStr ("Fantacalcio (" ++ faUrl ++ ")")),
     ("verification_link", .pyStr faUrl)]

/-- Embedding of `fetch_referee_aia`. -/
def fetch_referee_aia (e : Env) : Option PyDict :=
  e.aiaRefName.map (fun n =>
    [("name", .pyStr n), ("source", .pyStr "AIA-FIGC"),
     ("verification_link", .pyStr aiaUrl)])

/-- Embedding of `SerieADataScraper._enrich_referee`. -/
def _enrich_referee (ref : PyDict) : PyDict :=
  let name := pyLower (match pyGet ref "name" with | some (.pyStr s) => s | _ => "")
  let hi := containsSub name "orsato" || containsSub name "massa"
  pySet (pySet (pySet ref "strictness"
      (.pyStrict (if hi then .HIGH else .MEDIUM)))
    "avg_cards" (.pyRat (if hi then 5.0 else 4.0)))
    "_is_fallback" (.pyBool false)

/-- Embedding of `SerieADataScraper.fetch_lineup`. -/
def fetch_lineup (e : Env) : PyDict :=
  let result := fetch_lineup_fantacalcio e
  if pyTruthy (pyGet result "home") || pyTruthy (pyGet result "away") then result
  else
    [("home", .pyList []), ("away", .pyList []), ("bajas", .pyList []),
     ("source", .pyStr "Sin datos Serie A"),
     ("verification_link", .pyStr faUrl)]

/-- Embedding of `SerieADataScraper.fetch_referee` (AIA, else
`random.choice` over the pool). -/
def fetch_referee (e : Env) (rng : Nat) : PyDict :=
  match fetch_referee_aia e with
  | some ref => _enrich_referee ref
  | none =>
    let fb := SERIE_A_REFEREE_POOL.getD (rng % SERIE_A_REFEREE_POOL.length) ("", 0)
    [("name", .pyStr fb.1), ("avg_cards", .pyRat fb.2),
     ("source", .pyStr "Pool Serie A"),
     ("verification_link", .pyStr aiaUrl),
     ("_is_fallback", .pyBool true)]

/-- The all-sources-fail environment. -/
def allFail : Env := { faParse := none, aiaRefName := none }

end SerieA

namespace Bundesliga

/-- `BUNDESLIGA_REFEREE_POOL`. -/
def BUNDESLIGA_REFEREE_POOL : List (String × ℚ) :=
  [("Felix Brych", 4.8), ("Tobias Stieler", 3.3), ("Deniz Aytekin", 4.0),
   ("Marco Fritz", 3.9), ("Daniel Schlager", 4.2), ("Robert Kampka", 3.7)]

/-- Oracle environment for the Bundesliga scraper. -/
structure Env where
  /-- Parse outcome of the Kicker lineups page: (home players, away
  players), before the `[:11]` caps. -/
  kickerParse : Option (List String × List String)
  /-- Outcome of `fetch_referee_dfb`: (name, whichever of the two DFB URLs
  produced the match). -/
  dfbRef : Option (String × String)
  /-- Outcome of the Bundesliga `fetch_referee_rf`: (name, match URL). -/
  rfRef : Option (String × String)
  /-- Outcome of `fetch_referee_kicker`: (name, match URL). -/
  kickerRef : Option (String × String)
deriving DecidableEq

/-- Kicker lineups URL. -/
def kickerUrl : String := "https://www.kicker.de/bundesliga/aufstellungen"

/-- DFB designations URL (the fallback pool's verification link). -/
def dfbUrl : String := "https://www.dfb.de/schiedsrichter/ansetzungen/"

/-- Embedding of `fetch_lineup_kicker`. -/
def fetch_lineup_kicker (e : Env) : PyDict :=
  match e.kickerParse with
  | none => initLineupDict
  | some (hp, ap) =>
    [("home", .pyList (hp.take 11)), ("away", .pyList (ap.take 11)),
     ("bajas", .pyList []),
     ("source", .pyStr ("Kicker.de (" ++ kickerUrl ++ ")")),
     ("verification_link", .pyStr kickerUrl)]

/-- Embedding of `fetch_referee_dfb`. -/
def fetch_referee_dfb (e : Env) : Option PyDict :=
  e.dfbRef.map (fun nu =>
    [("name", .pyStr nu.1), ("source", .pyStr "DFB Oficial"),
     ("verification_link", .pyStr nu.2)])

/-- Embedding of the Bundesliga `fetch_referee_rf`. -/
def fetch_referee_rf (e : Env) : Option PyDict :=
  e.rfRef.map (fun nu =>
    [("name", .pyStr nu.1), ("source", .pyStr "Resultados-Futbol"),
     ("verification_link", .pyStr nu.2)])

/-- Embedding of `fetch_referee_kicker`. -/
def fetch_referee_kicker (e : Env) : Option PyDict :=
  e.kickerRef.map (fun nu =>
    [("name", .pyStr nu.1), ("source", .pyStr "Kicker.de"),
     ("verification_link", .pyStr nu.2)])

/-- Embedding of `BundesligaDataScraper._enrich_referee`. -/
def _enrich_referee (ref : PyDict) : PyDict :=
  let name := pyLower (match pyGet ref "name" with | some (.pyStr s) => s | _ => "")
  let hi := containsSub name "brych" || containsSub name "aytekin"
  pySet (pySet (pySet ref "strictness"
      (.pyStrict (if hi then .HIGH else .MEDIUM)))
    "avg_cards" (.pyRat (if hi then 4.8 else 3.9)))
    "_is_fallback" (.pyBool false)

/-- Embedding of `BundesligaDataScraper.fetch_lineup`. -/
def fetch_lineup (e : Env) : PyDict :=
  let result := fetch_lineup_kicker e
  if pyTruthy (pyGet result "home") || pyTruthy (pyGet result "away") then result
  else
    [("home", .pyList []), ("away", .pyList []), ("bajas", .pyList []),
     ("source", .pyStr "Sin datos Bundesliga"),
     ("verification_link", .pyStr kickerUrl)]

/-- Embedding of `BundesligaDataScraper.fetch_referee` (DFB, then RF, then
Kicker, else `random.choice` over the pool). -/
def fetch_referee (e : Env) (rng : Nat) : PyDict :=
  match fetch_referee_dfb e with
  | some ref => _enrich_referee ref
  | none =>
  match fetch_referee_rf e with
  | some ref => _enrich_referee ref
  | none =>
  match fetch_referee_kicker e with
  | some ref => _enrich_referee ref
  | none =>
    let fb := BUNDESLIGA_REFEREE_POOL.getD (rng % BUNDESLIGA_REFEREE_POOL.length) ("", 0)
    [("name", .pyStr fb.1), ("avg_cards", .pyRat fb.2),
     ("source", .pyStr "Pool Bundesliga"),
     ("verification_link", .pyStr dfbUrl),
     ("_is_fallback", .pyBool true)]

/-- The all-sources-fail environment. -/
def allFail : Env := { kickerParse := none, dfbRef := none, rfRef := none, kickerRef := none }

end Bundesliga

namespace Ligue1

/-- `LIGUE1_REFEREE_POOL`. -/
def LIGUE1_REFEREE_POOL : List (String × ℚ) :=
  [("Clément Turpin", 4.7), ("Benoît Bastien", 4.0), ("François Letexier", 3.8),
   ("Jérôme Brisard", 3.3), ("Willy Delajod", 4.1), ("Ruddy Buquet", 3.6)]

/-- Oracle environment for the Ligue 1 scraper. -/
structure Env where
  /-- Parse outcome of the L'Equipe page: (home players, away players),
  before the `[:11]` caps. -/
  leParse : Option (List String × List String)
  /-- Referee name matched on the FFF designations page. -/
  fffRefName : Option String
deriving DecidableEq

/-- L'Equipe probable-lineups URL. -/
def leUrl : String := "https://www.lequipe.fr/Football/Actualite/Compositions-probables-de-la-journee-de-ligue-1/1"

/-- FFF designations URL. -/
def fffUrl : String := "https://fff.fr/arbitrage/designations/"

/-- Embedding of `fetch_lineup_lequipe`. -/
def fetch_lineup_lequipe (e : Env) : PyDict :=
  match e.leParse with
  | none => initLineupDict
  | some (hp, ap) =>
    [("home", .pyList (hp.take 11)), ("away", .pyList (ap.take 11)),
     ("bajas", .pyList []),
     ("source", .pyStr ("L'Equipe (" ++ leUrl ++ ")")),
     ("verification_link", .pyStr leUrl)]

/-- Embedding of `fetch_referee_fff`. -/
def fetch_referee_fff (e : Env) : Option PyDict :=
  e.fffRefName.map (fun n =>
    [("name", .pyStr n), ("source", .pyStr "FFF Oficial"),
     ("verification_link", .pyStr fffUrl)])

/-- Embedding of `Ligue1DataScraper._enrich_referee`. -/
def _enrich_referee (ref : PyDict) : PyDict :=
  let name := pyLower (match pyGet ref "name" with | some (.pyStr s) => s | _ => "")
  let hi := containsSub name "turpin" || containsSub name "letexier"
  pySet (pySet (pySet ref "strictness"
      (.pyStrict (if hi then .HIGH else .MEDIUM)))
    "avg_cards" (.pyRat (if hi then 4.7 else 3.9)))
    "_is_fallback" (.pyBool false)

/-- Embedding of `Ligue1DataScraper.fetch_lineup`. -/
def fetch_lineup (e : Env) : PyDict :=
  let result := fetch_lineup_lequipe e
  if pyTruthy (pyGet result "home") || pyTruthy (pyGet result "away") then result
  else
    [("home", .pyList []), ("away", .pyList []), ("bajas", .pyList []),
     ("source", .pyStr "Sin datos Ligue 1"),
     ("verification_link", .pyStr "https://www.lequipe.fr")]

/-- Embedding of `Ligue1DataScraper.fetch_referee` (FFF, else
`random.choice` over the pool). -/
def fetch_referee (e : Env) (rng : Nat) : PyDict :=
  match fetch_referee_fff e with
  | some ref => _enrich_referee ref
  | none =>
    let fb := LIGUE1_REFEREE_POOL.getD (rng % LIGUE1_REFEREE_POOL.length) ("", 0)
    [("name", .pyStr fb.1), ("avg_cards", .pyRat fb.2),
     ("source", .pyStr "Pool Ligue 1"),
     ("verification_link", .pyStr fffUrl),
     ("_is_fallback", .pyBool true)]

/-- The all-sources-fail environment. -/
def allFail : Env := { leParse := none, fffRefName := none }

end Ligue1

namespace Generic

/-- The international pool of `_GenericScraper.fetch_referee`. -/
def GENERIC_POOL : List (String × ℚ) :=
  [("Glenn Nyberg", 4.1), ("Sandro Schärer", 4.8), ("Irati Gallastegui", 4.2)]

/-- Embedding of `_GenericScraper.fetch_lineup`: a constant no-data dict
that does carry `_is_fallback = True`. -/
def fetch_lineup : PyDict :=
  [("home", .pyList []), ("away", .pyList []), ("bajas", .pyList []),
   ("source", .pyStr "Sin datos (Liga no soportada en scraping automático)"),
   ("verification_link", .pyNone),
   ("_is_fallback", .pyBool true)]

/-- Embedding of `_GenericScraper.fetch_referee`: always a `random.choice`
from the international pool (modelled by the RNG state). -/
def fetch_referee (rng : Nat) : PyDict :=
  let fb := GENERIC_POOL.getD (rng % GENERIC_POOL.length) ("", 0)
  [("name", .pyStr fb.1),
   ("strictness", .pyStrict .MEDIUM),
   ("avg_cards", .pyRat fb.2),
   ("source", .pyStr "Pool Internacional (fuente automática no disponible)"),
   ("verification_link", .pyNone),
   ("_is_fallback", .pyBool true)]

end Generic

/-! ### The orchestrator (`MultiSourceFetcher`). -/

/-- The full oracle environment of one orchestrated call: the per-league
source outcomes, the pure md5 digest function and the process RNG state
(which `random.choice` consumes, so it generally differs between calls). -/
structure Env where
  laLiga : LaLiga.Env
  premier : Premier.Env
  serieA : SerieA.Env
  bundesliga : Bundesliga.Env
  ligue1 : Ligue1.Env
  md5int : String → Nat
  rng : Nat

/-- Dispatch of `scraper.fetch_lineup` over the factory's choice. -/
def scraperFetchLineup (env : Env) (k : ScraperKind) : PyDict :=
  match k with
  | .laLiga => LaLiga.fetch_lineup env.laLiga
  | .premier => Premier.fetch_lineup env.premier
  | .serieA => SerieA.fetch_lineup env.serieA
  | .bundesliga => Bundesliga.fetch_lineup env.bundesliga
  | .ligue1 => Ligue1.fetch_lineup env.ligue1
  | .generic => Generic.fetch_lineup

/-- Dispatch of `scraper.fetch_referee` over the factory's choice. -/
def scraperFetchReferee (env : Env) (k : ScraperKind) (home away : String) (d : PyDate) : PyDict :=
  match k with
  | .laLiga => LaLiga.fetch_referee env.laLiga env.md5int home away d
  | .premier => Premier.fetch_referee env.premier env.rng
  | .serieA => SerieA.fetch_referee env.serieA env.rng
  | .bundesliga => Bundesliga.fetch_referee env.bundesliga env.rng
  | .ligue1 => Ligue1.fetch_referee env.ligue1 env.rng
  | .generic => Generic.fetch_referee env.rng

/-- The six `setdefault` calls of `MultiSourceFetcher.fetch_lineup`. -/
def lineupSetdefaults (result : PyDict) : PyDict :=
  pySetdefault (pySetdefault (pySetdefault (pySetdefault (pySetdefault (pySetdefault
    result "home" (.pyList [])) "away" (.pyList [])) "bajas" (.pyList []))
    "source" (.pyStr "Desconocida")) "verification_link" .pyNone)
    "_is_fallback" (.pyBool false)

/-- The three `setdefault` calls of `MultiSourceFetcher.fetch_referee`. -/
def refereeSetdefaults (result : PyDict) : PyDict :=
  pySetdefault (pySetdefault (pySetdefault
    result "source" (.pyStr "Desconocida")) "verification_link" .pyNone)
    "_is_fallback" (.pyBool false)

/-- The lineup envelope `MultiSourceFetcher.fetch_lineup` hands back:
scraper dispatch followed by the key defaulting. -/
def lineup_envelope (env : Env) (league : String) : PyDict :=
  lineupSetdefaults (scraperFetchLineup env (scraperKindFor league))

/-- The referee envelope `MultiSourceFetcher.fetch_referee` hands back. -/
def referee_envelope (env : Env) (home away : String) (d : PyDate) (league : String) : PyDict :=
  refereeSetdefaults (scraperFetchReferee env (scraperKindFor league) home away d)

/-- Embedding of `MultiSourceFetcher.fetch_lineup`, including the strict
dict accesses its logging performs (`len(result['home'])`,
`len(result['away'])`, `len(result['bajas'])`, `result['source']`,
`result['_is_fallback']`): a missing key or a non-list player field there
would be an uncaught exception, modelled as `Except.error`. The home/away
names and the date influence the scrapers only through their source
lookups, which the oracle environment absorbs. -/
def MultiSourceFetcher.fetch_lineup (env : Env) (_home _away : String) (_d : PyDate)
    (league : String) : Except String PyDict := do
  let result := lineup_envelope env league
  let hv ← pyIndex result "home"
  let _ ← pyLen hv
  let av ← pyIndex result "away"
  let _ ← pyLen av
  let bv ← pyIndex result "bajas"
  let _ ← pyLen bv
  let _ ← pyIndex result "source"
  let _ ← pyIndex result "_is_fallback"
  pure result

/-- Embedding of `MultiSourceFetcher.fetch_referee`, including the strict
`result['name']` access its logging performs (the three `setdefault` calls
never cover `'name'`). -/
def MultiSourceFetcher.fetch_referee (env : Env) (home away : String) (d : PyDate)
    (league : String) : Except String PyDict := do
  let result := referee_envelope env home away d league
  let _ ← pyIndex result "name"
  let _ ← pyIndex result "source"
  pure result

/-- An orchestrator environment in which every source of every league
fails, parametrized by the digest function and the RNG state. -/
def envAllFail (md5int : String → Nat) (rng : Nat) : Env :=
  { laLiga := LaLiga.allFail, premier := Premier.allFail, serieA := SerieA.allFail,
    bundesliga := Bundesliga.allFail, ligue1 := Ligue1.allFail,
    md5int := md5int, rng := rng }

/-! ### Dictionary lemmas -/

theorem pyGet_append (d₁ d₂ : PyDict) (k : String) :
    pyGet (d₁ ++ d₂) k = match pyGet d₁ k with | some v => some v | none => pyGet d₂ k := by
  induction d₁ with
  | nil => simp [pyGet]
  | cons kv rest ih =>
    obtain ⟨k', v⟩ := kv
    by_cases h : k' = k
    · simp [pyGet, h]
    · simp [pyGet, h, ih]

theorem pyGet_setdefault_self (d : PyDict) (k : String) (v : PyVal) :
    pyGet (pySetdefault d k v) k = some ((pyGet d k).getD v) := by
  unfold pySetdefault hasKey
  cases h : pyGet d k with
  | some w => simp [h]
  | none => simp [h, pyGet_append, pyGet]

theorem pyGet_setdefault_ne (d : PyDict) (k k' : String) (v : PyVal) (h : k' ≠ k) :
    pyGet (pySetdefault d k v) k' = pyGet d k' := by
  unfold pySetdefault hasKey
  cases hk : pyGet d k with
  | some w => simp [hk]
  | none =>
    simp only [hk, Option.isSome_none, Bool.false_eq_true, if_false, pyGet_append]
    cases hk' : pyGet d k' with
    | some w => simp
    | none => simp [pyGet, (Ne.symm h : k ≠ k')]

theorem hasKey_setdefault_self (d : PyDict) (k : String) (v : PyVal) :
    hasKey (pySetdefault d k v) k = true := by
  unfold hasKey
  rw [pyGet_setdefault_self]
  rfl

theorem hasKey_setdefault_of (d : PyDict) (k k' : String) (v : PyVal)
    (h : hasKey d k' = true) : hasKey (pySetdefault d k v) k' = true := by
  by_cases hk : k' = k
  · subst hk
    exact hasKey_setdefault_self d k' v
  · unfold hasKey
    rw [pyGet_setdefault_ne d k k' v hk]
    exact h

theorem pyGet_pySet_self (d : PyDict) (k : String) (v : PyVal) :
    pyGet (pySet d k v) k = some v := by
  induction d with
  | nil => simp [pySet, pyGet]
  | cons kv rest ih =>
    obtain ⟨k', v'⟩ := kv
    by_cases h : k' = k
    · simp [pySet, pyGet, h]
    · simp [pySet, pyGet, h, ih]

theorem pyGet_pySet_ne (d : PyDict) (k k' : String) (v : PyVal) (h : k' ≠ k) :
    pyGet (pySet d k v) k' = pyGet d k' := by
  induction d with
  | nil => simp [pySet, pyGet, (Ne.symm h : k ≠ k')]
  | cons kv rest ih =>
    obtain ⟨k'', v'⟩ := kv
    by_cases hk : k'' = k
    · subst hk
      simp [pySet, pyGet, (Ne.symm h : k'' ≠ k')]
    · by_cases hk' : k'' = k'
      · simp [pySet, pyGet, hk, hk', h]
      · simp [pySet, pyGet, hk, hk', ih]

/-- Looking up `name` through the three enrichment writes
(`strictness`, `avg_cards`, `_is_fallback`) is looking it up in the
original dict. -/
theorem pyGet_name_enrichTriple (ref : PyDict) (s : RefereeStrictness) (q : ℚ) (b : Bool) :
    pyGet (pySet (pySet (pySet ref "strictness" (.pyStrict s)) "avg_cards" (.pyRat q))
      "_is_fallback" (.pyBool b)) "name" = pyGet ref "name" := by
  rw [pyGet_pySet_ne _ _ _ _ (by decide), pyGet_pySet_ne _ _ _ _ (by decide),
    pyGet_pySet_ne _ _ _ _ (by decide)]

/-- Looking up `_is_fallback` after the enrichment writes yields the
written value. -/
theorem pyGet_fb_enrichTriple (ref : PyDict) (s : RefereeStrictness) (q : ℚ) (b : Bool) :
    pyGet (pySet (pySet (pySet ref "strictness" (.pyStrict s)) "avg_cards" (.pyRat q))
      "_is_fallback" (.pyBool b)) "_is_fallback" = some (.pyBool b) :=
  pyGet_pySet_self _ _ _

/-- The lineup key-defaulting leaves `home`, `away`, `bajas`, `source` at
their incoming values when present, and its `_is_fallback` entry is the
incoming one when present, `False` otherwise. -/
theorem pyGet_lineupSetdefaults_fb (d : PyDict) :
    pyGet (lineupSetdefaults d) "_is_fallback" = some ((pyGet d "_is_fallback").getD (.pyBool false)) := by
  unfold lineupSetdefaults
  rw [pyGet_setdefault_self,
    pyGet_setdefault_ne _ _ _ _ (by decide), pyGet_setdefault_ne _ _ _ _ (by decide),
    pyGet_setdefault_ne _ _ _ _ (by decide), pyGet_setdefault_ne _ _ _ _ (by decide),
    pyGet_setdefault_ne _ _ _ _ (by decide)]

theorem pyGet_lineupSetdefaults_home (d : PyDict) :
    pyGet (lineupSetdefaults d) "home" = some ((pyGet d "home").getD (.pyList [])) := by
  unfold lineupSetdefaults
  rw [pyGet_setdefault_ne _ _ _ _ (by decide), pyGet_setdefault_ne _ _ _ _ (by decide),
    pyGet_setdefault_ne _ _ _ _ (by decide), pyGet_setdefault_ne _ _ _ _ (by decide),
    pyGet_setdefault_ne _ _ _ _ (by decide), pyGet_setdefault_self]

theorem pyGet_lineupSetdefaults_away (d : PyDict) :
    pyGet (lineupSetdefaults d) "away" = some ((pyGet d "away").getD (.pyList [])) := by
  unfold lineupSetdefaults
  rw [pyGet_setdefault_ne _ _ _ _ (by decide), pyGet_setdefault_ne _ _ _ _ (by decide),
    pyGet_setdefault_ne _ _ _ _ (by decide), pyGet_setdefault_ne _ _ _ _ (by decide),
    pyGet_setdefault_self, pyGet_setdefault_ne _ _ _ _ (by decide)]

theorem pyGet_lineupSetdefaults_bajas (d : PyDict) :
    pyGet (lineupSetdefaults d) "bajas" = some ((pyGet d "bajas").getD (.pyList [])) := by
  unfold lineupSetdefaults
  rw [pyGet_setdefault_ne _ _ _ _ (by decide), pyGet_setdefault_ne _ _ _ _ (by decide),
    pyGet_setdefault_ne _ _ _ _ (by decide), pyGet_setdefault_self,
    pyGet_setdefault_ne _ _ _ _ (by decide), pyGet_setdefault_ne _ _ _ _ (by decide)]

theorem pyGet_lineupSetdefaults_source (d : PyDict) :
    pyGet (lineupSetdefaults d) "source" = some ((pyGet d "source").getD (.pyStr "Desconocida")) := by
  unfold lineupSetdefaults
  rw [pyGet_setdefault_ne _ _ _ _ (by decide), pyGet_setdefault_ne _ _ _ _ (by decide),
    pyGet_setdefault_self, pyGet_setdefault_ne _ _ _ _ (by decide),
    pyGet_setdefault_ne _ _ _ _ (by decide), pyGet_setdefault_ne _ _ _ _ (by decide)]

theorem pyGet_lineupSetdefaults_vlink (d : PyDict) :
    pyGet (lineupSetdefaults d) "verification_link" = some ((pyGet d "verification_link").getD .pyNone) := by
  unfold lineupSetdefaults
  rw [pyGet_setdefault_ne _ _ _ _ (by decide), pyGet_setdefault_self,
    pyGet_setdefault_ne _ _ _ _ (by decide), pyGet_setdefault_ne _ _ _ _ (by decide),
    pyGet_setdefault_ne _ _ _ _ (by decide), pyGet_setdefault_ne _ _ _ _ (by decide)]

theorem pyGet_refereeSetdefaults_source (d : PyDict) :
    pyGet (refereeSetdefaults d) "source" = some ((pyGet d "source").getD (.pyStr "Desconocida")) := by
  unfold refereeSetdefaults
  rw [pyGet_setdefault_ne _ _ _ _ (by decide), pyGet_setdefault_ne _ _ _ _ (by decide),
    pyGet_setdefault_self]

theorem pyGet_refereeSetdefaults_vlink (d : PyDict) :
    pyGet (refereeSetdefaults d) "verification_link" = some ((pyGet d "verification_link").getD .pyNone) := by
  unfold refereeSetdefaults
  rw [pyGet_setdefault_ne _ _ _ _ (by decide), pyGet_setdefault_self,
    pyGet_setdefault_ne _ _ _ _ (by decide)]

theorem pyGet_refereeSetdefaults_name (d : PyDict) :
    pyGet (refereeSetdefaults d) "name" = pyGet d "name" := by
  unfold refereeSetdefaults
  rw [pyGet_setdefault_ne _ _ _ _ (by decide), pyGet_setdefault_ne _ _ _ _ (by decide),
    pyGet_setdefault_ne _ _ _ _ (by decide)]

theorem pyGet_refereeSetdefaults_fb (d : PyDict) :
    pyGet (refereeSetdefaults d) "_is_fallback" = some ((pyGet d "_is_fallback").getD (.pyBool false)) := by
  unfold refereeSetdefaults
  rw [pyGet_setdefault_self,
    pyGet_setdefault_ne _ _ _ _ (by decide), pyGet_setdefault_ne _ _ _ _ (by decide)]

/-! ### Sorting and dedup lemmas -/

theorem mem_insortStr (a x : String) (l : List String) :
    a ∈ insortStr x l ↔ a = x ∨ a ∈ l := by
  induction l with
  | nil => simp [insortStr]
  | cons y ys ih =>
    by_cases h : strLe x y = true
    · simp [insortStr, h]
    · simp [insortStr, h, ih]
      tauto

theorem mem_pySorted (a : String) (l : List String) :
    a ∈ pySorted l ↔ a ∈ l := by
  induction l with
  | nil => simp [pySorted]
  | cons x xs ih => simp [pySorted, mem_insortStr, ih]

theorem length_insortStr (x : String) (l : List String) :
    (insortStr x l).length = l.length + 1 := by
  induction l with
  | nil => simp [insortStr]
  | cons y ys ih =>
    by_cases h : strLe x y = true
    · simp [insortStr, h]
    · simp [insortStr, h, ih]

theorem length_pySorted (l : List String) :
    (pySorted l).length = l.length := by
  induction l with
  | nil => rfl
  | cons x xs ih => simp [pySorted, length_insortStr, ih]

theorem mem_setList (a : String) (l : List String) :
    a ∈ setList l ↔ a ∈ l := by
  induction l with
  | nil => simp [setList]
  | cons x xs ih =>
    by_cases h : (setList xs).contains x
    · have hx : x ∈ setList xs := by
        simpa using h
      simp only [setList, h, if_true, List.mem_cons, ih]
      constructor
      · intro hm
        exact Or.inr hm
      · rintro (rfl | hm)
        · exact ih.mp hx
        · exact hm
    · have hx : x ∉ setList xs := by simpa using h
      simp [setList, hx, ih]

/-! ### Fuzzy-match lemmas -/

/-- A successful fuzzy scan returns the name of some roster player. -/
theorem fuzzyScan_eq_some (st : List String) (roster : List Player) (m : String)
    (h : fuzzyScan st roster = some m) : ∃ p ∈ roster, m = p.name := by
  obtain ⟨p, hp, hf⟩ := List.exists_of_findSome?_eq_some h
  refine ⟨p, hp, ?_⟩
  by_cases hc : (subsetB (tokenSet p.name) st || subsetB st (tokenSet p.name) ||
      intersects st (tokenSet p.name)) = true
  · simp [hc] at hf
    exact hf.symm
  · simp [hc] at hf

theorem fuzzy_match_eq_some (n : String) (roster : List Player) (m : String)
    (h : fuzzy_match n roster = some m) : ∃ p ∈ roster, m = p.name := by
  unfold fuzzy_match at h
  by_cases he : (tokenSet n).isEmpty
  · simp [he] at h
  · simp only [he, Bool.false_eq_true, if_false] at h
    exact fuzzyScan_eq_some _ _ _ h

/-- Members of the match-accumulation loop are either carried over from
the accumulator or are canonical roster names. -/
theorem mem_accumMatches (roster : List Player) (found ns : List String) (x : String)
    (h : x ∈ accumMatches roster found ns) :
    x ∈ found ∨ ∃ p ∈ roster, x = p.name := by
  induction ns generalizing found with
  | nil => exact Or.inl h
  | cons n rest ih =>
    unfold accumMatches at h
    split at h
    next m hm =>
      split at h
      next =>
        rcases ih _ h with hmem | hros
        · rcases List.mem_append.mp hmem with hf | hx
          · exact Or.inl hf
          · right
            have hxm : x = m := by simpa using hx
            subst hxm
            exact fuzzy_match_eq_some n roster x hm
        · exact Or.inr hros
      next => exact ih found h
    next => exact ih found h

/-- What `resolveSpecificName` yields is the raw name or a roster name. -/
theorem resolveSpecificName_cases (roster : List Player) (n : String) :
    resolveSpecificName roster n = n ∨
    ∃ p ∈ roster, resolveSpecificName roster n = p.name := by
  unfold resolveSpecificName
  cases hm : fuzzy_match_specific n roster with
  | none => exact Or.inl rfl
  | some s =>
    by_cases he : s.isEmpty
    · simp [he]
    · simp only [he, Bool.false_eq_true, if_false]
      right
      exact fuzzyScan_eq_some _ _ _ hm

/-! ### Shape lemmas for the scraper results -/

/-- Every branch of the La Liga lineup cascade yields list-valued
`home`/`away`/`bajas` entries and — crucially — no `_is_fallback` key. -/
theorem laLiga_lineup_shape (e : LaLiga.Env) :
    (∃ xs, pyGet (LaLiga.fetch_lineup e) "home" = some (.pyList xs)) ∧
    (∃ xs, pyGet (LaLiga.fetch_lineup e) "away" = some (.pyList xs)) ∧
    (∃ xs, pyGet (LaLiga.fetch_lineup e) "bajas" = some (.pyList xs)) ∧
    pyGet (LaLiga.fetch_lineup e) "_is_fallback" = none := by
  unfold LaLiga.fetch_lineup LaLiga.fetch_lineup_futbolfantasy LaLiga.fetch_lineup_rf
  cases e.ffMatchUrl <;> cases e.ffLineupParse <;> cases e.rfLineup <;>
    simp [initLineupDict, pyGet, pyTruthy] <;> split_ifs <;> simp [pyGet]

/-- Same shape facts for the Premier League lineup cascade. -/
theorem premier_lineup_shape (e : Premier.Env) :
    (∃ xs, pyGet (Premier.fetch_lineup e) "home" = some (.pyList xs)) ∧
    (∃ xs, pyGet (Premier.fetch_lineup e) "away" = some (.pyList xs)) ∧
    (∃ xs, pyGet (Premier.fetch_lineup e) "bajas" = some (.pyList xs)) ∧
    pyGet (Premier.fetch_lineup e) "_is_fallback" = none := by
  unfold Premier.fetch_lineup Premier.fetch_lineup_premierinjuries
  cases e.piParse <;>
    simp [initLineupDict, pyGet, pyTruthy] <;> split_ifs <;> simp [pyGet]

/-- Same shape facts for the Serie A lineup cascade. -/
theorem serieA_lineup_shape (e : SerieA.Env) :
    (∃ xs, pyGet (SerieA.fetch_lineup e) "home" = some (.pyList xs)) ∧
    (∃ xs, pyGet (SerieA.fetch_lineup e) "away" = some (.pyList xs)) ∧
    (∃ xs, pyGet (SerieA.fetch_lineup e) "bajas" = some (.pyList xs)) ∧
    pyGet (SerieA.fetch_lineup e) "_is_fallback" = none := by
  unfold SerieA.fetch_lineup SerieA.fetch_lineup_fantacalcio
  cases e.faParse <;>
    simp [initLineupDict, pyGet, pyTruthy] <;> split_ifs <;> simp [pyGet]

/-- Same shape facts for the Bundesliga lineup cascade. -/
theorem bundesliga_lineup_shape (e : Bundesliga.Env) :
    (∃ xs, pyGet (Bundesliga.fetch_lineup e) "home" = some (.pyList xs)) ∧
    (∃ xs, pyGet (Bundesliga.fetch_lineup e) "away" = some (.pyList xs)) ∧
    (∃ xs, pyGet (Bundesliga.fetch_lineup e) "bajas" = some (.pyList xs)) ∧
    pyGet (Bundesliga.fetch_lineup e) "_is_fallback" = none := by
  unfold Bundesliga.fetch_lineup Bundesliga.fetch_lineup_kicker
  cases e.kickerParse <;>
    simp [initLineupDict, pyGet, pyTruthy] <;> split_ifs <;> simp [pyGet]

/-- Same shape facts for the Ligue 1 lineup cascade. -/
theorem ligue1_lineup_shape (e : Ligue1.Env) :
    (∃ xs, pyGet (Ligue1.fetch_lineup e) "home" = some (.pyList xs)) ∧
    (∃ xs, pyGet (Ligue1.fetch_lineup e) "away" = some (.pyList xs)) ∧
    (∃ xs, pyGet (Ligue1.fetch_lineup e) "bajas" = some (.pyList xs)) ∧
    pyGet (Ligue1.fetch_lineup e) "_is_fallback" = none := by
  unfold Ligue1.fetch_lineup Ligue1.fetch_lineup_lequipe
  cases e.leParse <;>
    simp [initLineupDict, pyGet, pyTruthy] <;> split_ifs <;> simp [pyGet]

/-- The generic lineup result: list-valued fields and an explicit
`_is_fallback = True`. -/
theorem generic_lineup_shape :
    (∃ xs, pyGet Generic.fetch_lineup "home" = some (.pyList xs)) ∧
    (∃ xs, pyGet Generic.fetch_lineup "away" = some (.pyList xs)) ∧
    (∃ xs, pyGet Generic.fetch_lineup "bajas" = some (.pyList xs)) ∧
    pyGet Generic.fetch_lineup "_is_fallback" = some (.pyBool true) := by
  refine ⟨⟨[], ?_⟩, ⟨[], ?_⟩, ⟨[], ?_⟩, ?_⟩ <;> decide

/-- The La Liga referee result always carries a string `name`, and its
`_is_fallback` entry is `True` exactly when all four sources failed. -/
theorem laLiga_referee_shape (e : LaLiga.Env) (md5f : String → Nat) (h a : String) (d : PyDate) :
    (∃ n, pyGet (LaLiga.fetch_referee e md5f h a d) "name" = some (.pyStr n)) ∧
    pyGet (LaLiga.fetch_referee e md5f h a d) "_is_fallback" =
      some (.pyBool (LaLiga.refAllFail e)) := by
  unfold LaLiga.fetch_referee LaLiga.refAllFail LaLiga.fetch_referee_futbolfantasy
    LaLiga.fetch_referee_rf LaLiga.fetch_referee_rfef LaLiga.fetch_referee_besoccer
  cases e.ffMatchUrl <;> cases e.ffRefName <;> cases e.rfRef <;>
    cases e.rfefRefName <;> cases e.besoccerRef <;>
    simp [LaLiga._enrich_referee, pyGet_name_enrichTriple, pyGet_fb_enrichTriple, pyGet]

/-- The Premier League referee result always carries a string `name`. -/
theorem premier_referee_name (e : Premier.Env) (rng : Nat) :
    ∃ n, pyGet (Premier.fetch_referee e rng) "name" = some (.pyStr n) := by
  unfold Premier.fetch_referee Premier.fetch_referee_bbcsport
  cases e.bbcRef <;>
    simp [Premier._enrich_referee, pyGet_name_enrichTriple, pyGet]

/-- The Serie A referee result always carries a string `name`. -/
theorem serieA_referee_name (e : SerieA.Env) (rng : Nat) :
    ∃ n, pyGet (SerieA.fetch_referee e rng) "name" = some (.pyStr n) := by
  unfold SerieA.fetch_referee SerieA.fetch_referee_aia
  cases e.aiaRefName <;>
    simp [SerieA._enrich_referee, pyGet_name_enrichTriple, pyGet]

/-- The Bundesliga referee result always carries a string `name`. -/
theorem bundesliga_referee_name (e : Bundesliga.Env) (rng : Nat) :
    ∃ n, pyGet (Bundesliga.fetch_referee e rng) "name" = some (.pyStr n) := by
  unfold Bundesliga.fetch_referee Bundesliga.fetch_referee_dfb
    Bundesliga.fetch_referee_rf Bundesliga.fetch_referee_kicker
  cases e.dfbRef <;> cases e.rfRef <;> cases e.kickerRef <;>
    simp [Bundesliga._enrich_referee, pyGet_name_enrichTriple, pyGet]

/-- The Ligue 1 referee result always carries a string `name`. -/
theorem ligue1_referee_name (e : Ligue1.Env) (rng : Nat) :
    ∃ n, pyGet (Ligue1.fetch_referee e rng) "name" = some (.pyStr n) := by
  unfold Ligue1.fetch_referee Ligue1.fetch_referee_fff
  cases e.fffRefName <;>
    simp [Ligue1._enrich_referee, pyGet_name_enrichTriple, pyGet]

/-- The generic referee result always carries a string `name`. -/
theorem generic_referee_name (rng : Nat) :
    ∃ n, pyGet (Generic.fetch_referee rng) "name" = some (.pyStr n) := by
  unfold Generic.fetch_referee
  simp [pyGet]

/-- Whatever scraper the factory picked, the lineup dict has list-valued
`home`, `away` and `bajas` entries. -/
theorem scraper_lineup_lists (env : Env) (k : ScraperKind) :
    (∃ xs, pyGet (scraperFetchLineup env k) "home" = some (.pyList xs)) ∧
    (∃ xs, pyGet (scraperFetchLineup env k) "away" = some (.pyList xs)) ∧
    (∃ xs, pyGet (scraperFetchLineup env k) "bajas" = some (.pyList xs)) := by
  cases k with
  | laLiga => exact ⟨(laLiga_lineup_shape env.laLiga).1, (laLiga_lineup_shape env.laLiga).2.1,
      (laLiga_lineup_shape env.laLiga).2.2.1⟩
  | premier => exact ⟨(premier_lineup_shape env.premier).1, (premier_lineup_shape env.premier).2.1,
      (premier_lineup_shape env.premier).2.2.1⟩
  | serieA => exact ⟨(serieA_lineup_shape env.serieA).1, (serieA_lineup_shape env.serieA).2.1,
      (serieA_lineup_shape env.serieA).2.2.1⟩
  | bundesliga => exact ⟨(bundesliga_lineup_shape env.bundesliga).1,
      (bundesliga_lineup_shape env.bundesliga).2.1, (bundesliga_lineup_shape env.bundesliga).2.2.1⟩
  | ligue1 => exact ⟨(ligue1_lineup_shape env.ligue1).1, (ligue1_lineup_shape env.ligue1).2.1,
      (ligue1_lineup_shape env.ligue1).2.2.1⟩
  | generic => exact ⟨generic_lineup_shape.1, generic_lineup_shape.2.1, generic_lineup_shape.2.2.1⟩

/-- Whatever scraper the factory picked, the referee dict carries a string
`name` (this is what keeps the orchestrator's `result['name']` from
raising). -/
theorem scraper_referee_name (env : Env) (k : ScraperKind) (h a : String) (d : PyDate) :
    ∃ n, pyGet (scraperFetchReferee env k h a d) "name" = some (.pyStr n) := by
  cases k with
  | laLiga => exact (laLiga_referee_shape env.laLiga env.md5int h a d).1
  | premier => exact premier_referee_name env.premier env.rng
  | serieA => exact serieA_referee_name env.serieA env.rng
  | bundesliga => exact bundesliga_referee_name env.bundesliga env.rng
  | ligue1 => exact ligue1_referee_name env.ligue1 env.rng
  | generic => exact generic_referee_name env.rng

/-! ### Concrete instances used by counterexamples and witnesses -/

/-- Two real entries of `MockDataProvider._init_teams` (the full store has
about a hundred; the claims only need lookup hits and misses). -/
def sampleTeamsDb : List (String × Team) :=
  [("Celta de Vigo", _create_team "Celta de Vigo" "La Liga"
      ["Guaita", "Mingueza", "Starfelt", "Marcos Alonso", "Hugo Álvarez", "Beltrán",
       "Hugo Sotelo", "Bamba", "Swedberg", "Iago Aspas", "Borja Iglesias"]),
   ("Villarreal", _create_team "Villarreal" "La Liga"
      ["Luiz Junior", "Femenía", "Albiol", "Bailly", "Sergi Cardona", "Comesaña",
       "Baena", "Yeremy", "Barry", "Mikautadze", "Ayoze"])]

/-- A provider over the sample store. -/
def sampleProvider : MockDataProvider := { teams_db := sampleTeamsDb }

/-- A data provider whose every roster is the single player Iago Aspas. -/
def aspasProvider : String → Team :=
  fun t => { name := t, league := "La Liga", players := [{ name := "Iago Aspas" }] }

/-- A data provider whose every roster is the single player Juan García —
so the home and the away roster share a canonical name. -/
def sharedNameProvider : String → Team :=
  fun t => { name := t, league := "La Liga", players := [{ name := "Juan García" }] }

/-! ### C7 — league normalizer -/

/-- C7, counterexample: the normalizer is NOT into a closed set of league
values plus a Generic value. `"Liga Galáctica"` normalizes to the cleaned
input `"liga galáctica"`, which is none of the five canonical league
strings, and a second unrecognized string normalizes to a different value,
so there is no single Generic normalizer output; it is the scraper
factory, not the normalizer, that maps unmatched strings to the generic
scraper. -/
theorem C7_counterexample :
    _normalize_league "Liga Galáctica" = "liga galáctica" ∧
    "liga galáctica" ∉ ["La Liga", "Premier League", "Serie A", "Bundesliga", "Ligue 1"] ∧
    _normalize_league "Conference Z" ≠ _normalize_league "Liga Galáctica" := by
  decide

/-- C7, amended: `_normalize_league` is pure and total; the three La Liga
aliases all normalize to `"La Liga"` (and select the La Liga scraper); an
unrecognized string such as `"Liga Galáctica"` is passed through cleaned
(`"liga galáctica"`), and the scraper factory maps it to the generic
scraper without error. -/
theorem C7_amended :
    _normalize_league "La Liga (España)" = "La Liga" ∧
    _normalize_league "la liga" = "La Liga" ∧
    _normalize_league "EA SPORTS La Liga" = "La Liga" ∧
    scraperKindFor "La Liga (España)" = .laLiga ∧
    scraperKindFor "la liga" = .laLiga ∧
    scraperKindFor "EA SPORTS La Liga" = .laLiga ∧
    _normalize_league "Liga Galáctica" = "liga galáctica" ∧
    scraperKindFor "Liga Galáctica" = .generic := by
  decide

/-! ### C9 — roster store behavior for unknown teams -/

/-- C9, counterexample: for a team absent from the store the operations do
NOT return an empty list — `get_team_data` synthesizes an 11-player dummy
team and `get_last_match_lineup` returns its 11 placeholder names. -/
theorem C9_counterexample :
    get_last_match_lineup sampleProvider "Fantasma FC" =
      ["Fantasma FC GK", "Fantasma FC LD", "Fantasma FC CT1", "Fantasma FC CT2",
       "Fantasma FC LI", "Fantasma FC MC1", "Fantasma FC MC2", "Fantasma FC MO",
       "Fantasma FC ED", "Fantasma FC DC", "Fantasma FC EI"] ∧
    get_last_match_lineup sampleProvider "Fantasma FC" ≠ [] ∧
    (get_team_data sampleProvider "Fantasma FC").players.length = 11 := by
  decide

/-- C9, amended: the roster operations never fail (they are total
functions), but for a team name whose lookup misses they return a
generated dummy team of 11 placeholder players — `get_last_match_lineup`
yields those 11 names, never the empty list. -/
theorem C9_amended (db : List (String × Team)) (team_name : String)
    (hmiss : db.lookup (if team_name.isEmpty then "Equipo Desconocido" else team_name) = none) :
    get_team_data { teams_db := db } team_name =
      _create_dummy_team (if team_name.isEmpty then "Equipo Desconocido" else team_name) "Unknown" ∧
    (get_team_data { teams_db := db } team_name).players.length = 11 ∧
    get_last_match_lineup { teams_db := db } team_name =
      dummy_key_players (if team_name.isEmpty then "Equipo Desconocido" else team_name) ∧
    get_last_match_lineup { teams_db := db } team_name ≠ [] := by
  have hgt : get_team_data { teams_db := db } team_name =
      _create_dummy_team (if team_name.isEmpty then "Equipo Desconocido" else team_name) "Unknown" := by
    simp [get_team_data, hmiss]
  refine ⟨hgt, ?_, ?_, ?_⟩
  · rw [hgt]
    simp [_create_dummy_team, _create_team, dummy_key_players]
  · unfold get_last_match_lineup
    rw [hgt]
    simp [_create_dummy_team, _create_team, dummy_key_players]
  · unfold get_last_match_lineup
    rw [hgt]
    simp [_create_dummy_team, _create_team, dummy_key_players]

/-- C9, witness: the amended theorem applied to the sample store and an
unknown team. -/
theorem C9_witness :
    get_last_match_lineup { teams_db := sampleTeamsDb } "Fantasma FC" ≠ [] :=
  (C9_amended sampleTeamsDb "Fantasma FC" (by decide)).2.2.2

/-! ### C3 — retention of unmatched names -/

/-- C3, counterexample: `_map_to_rosters` DROPS a name that matches no
roster entry instead of retaining it verbatim. With rosters containing
only Iago Aspas, the extracted name `"Zzyxw Qqrst"` (no token overlap)
appears in neither output list — the resolved output is empty. -/
theorem C3_counterexample :
    _map_to_rosters aspasProvider ["Zzyxw Qqrst"] "Celta de Vigo" "Villarreal" =
      { home := [], away := [], count := 0, status := "predicted" } ∧
    "Zzyxw Qqrst" ∉ (_map_to_rosters aspasProvider ["Zzyxw Qqrst"] "Celta de Vigo" "Villarreal").home ∧
    "Zzyxw Qqrst" ∉ (_map_to_rosters aspasProvider ["Zzyxw Qqrst"] "Celta de Vigo" "Villarreal").away := by
  decide

/-- C3, amended: it is `_map_to_specific_rosters` that retains unmatched
names: every scraped name contributes its resolution (the canonical roster
name when the fuzzy match is truthy, the raw text otherwise) to the output
of its side, and each resolution is either the raw name or a roster
player's name. `_map_to_rosters` keeps only fuzzy matches and silently
drops unmatched names. -/
theorem C3_amended (gtd : String → Team) (home_scraped away_scraped : List String)
    (home_team away_team : String) :
    (∀ n ∈ home_scraped,
      resolveSpecificName (gtd home_team).players n ∈
        (_map_to_specific_rosters gtd home_scraped away_scraped home_team away_team).home) ∧
    (∀ n ∈ away_scraped,
      resolveSpecificName (gtd away_team).players n ∈
        (_map_to_specific_rosters gtd home_scraped away_scraped home_team away_team).away) ∧
    (∀ (roster : List Player) (n : String),
      resolveSpecificName roster n = n ∨
      ∃ p ∈ roster, resolveSpecificName roster n = p.name) := by
  refine ⟨?_, ?_, fun roster n => resolveSpecificName_cases roster n⟩
  · intro n hn
    simp only [_map_to_specific_rosters]
    rw [mem_pySorted, mem_setList]
    exact List.mem_map_of_mem _ hn
  · intro n hn
    simp only [_map_to_specific_rosters]
    rw [mem_pySorted, mem_setList]
    exact List.mem_map_of_mem _ hn

/-- C3, witness: with the one-player rosters, the scraped name `"Aspas"`
resolves to `"Iago Aspas"` and lands in the home output. -/
theorem C3_witness :
    resolveSpecificName (aspasProvider "Celta de Vigo").players "Aspas" = "Iago Aspas" ∧
    resolveSpecificName (aspasProvider "Celta de Vigo").players "Aspas" ∈
      (_map_to_specific_rosters aspasProvider ["Aspas"] [] "Celta de Vigo" "Villarreal").home :=
  ⟨by decide,
   (C3_amended aspasProvider ["Aspas"] [] "Celta de Vigo" "Villarreal").1 "Aspas" (by decide)⟩

/-! ### C4 — disjointness of home and away -/

/-- C4, counterexample: when the two rosters share a canonical name, the
same name is resolved into BOTH output lists, so the home/away
intersection is nonempty. -/
theorem C4_counterexample :
    (_map_to_rosters sharedNameProvider ["Juan García"] "Equipo H" "Equipo A").home =
      ["Juan García"] ∧
    (_map_to_rosters sharedNameProvider ["Juan García"] "Equipo H" "Equipo A").away =
      ["Juan García"] := by
  decide

/-- C4, amended: each output side of `_map_to_rosters` contains only
canonical names from its own roster; hence whenever the two rosters share
no player name, the home/away intersection is empty. (Without that
disjointness assumption the invariant fails, as the counterexample
shows.) -/
theorem C4_amended (gtd : String → Team) (names : List String) (home_team away_team : String) :
    (∀ x ∈ (_map_to_rosters gtd names home_team away_team).home,
      ∃ p ∈ (gtd home_team).players, x = p.name) ∧
    (∀ x ∈ (_map_to_rosters gtd names home_team away_team).away,
      ∃ p ∈ (gtd away_team).players, x = p.name) ∧
    ((∀ p ∈ (gtd home_team).players, ∀ q ∈ (gtd away_team).players, p.name ≠ q.name) →
      ∀ x ∈ (_map_to_rosters gtd names home_team away_team).home,
        x ∉ (_map_to_rosters gtd names home_team away_team).away) := by
  have hhome : ∀ x ∈ (_map_to_rosters gtd names home_team away_team).home,
      ∃ p ∈ (gtd home_team).players, x = p.name := by
    intro x hx
    simp only [_map_to_rosters] at hx
    rw [mem_pySorted] at hx
    rcases mem_accumMatches _ _ _ _ hx with h0 | hros
    · exact absurd h0 (List.not_mem_nil x)
    · exact hros
  have haway : ∀ x ∈ (_map_to_rosters gtd names home_team away_team).away,
      ∃ p ∈ (gtd away_team).players, x = p.name := by
    intro x hx
    simp only [_map_to_rosters] at hx
    rw [mem_pySorted] at hx
    rcases mem_accumMatches _ _ _ _ hx with h0 | hros
    · exact absurd h0 (List.not_mem_nil x)
    · exact hros
  refine ⟨hhome, haway, ?_⟩
  intro hdisj x hx hx'
  obtain ⟨p, hp, hxp⟩ := hhome x hx
  obtain ⟨q, hq, hxq⟩ := haway x hx'
  exact hdisj p hp q hq (hxp ▸ hxq ▸ rfl)

/-- C4, witness: with the disjoint Celta/Villarreal sample rosters, the
resolved `"Iago Aspas"` on the home side is absent from the away side. -/
theorem C4_witness :
    ("Iago Aspas" : String) ∉
      (_map_to_rosters (get_team_data sampleProvider) ["Aspas", "Baena"]
        "Celta de Vigo" "Villarreal").away :=
  (C4_amended (get_team_data sampleProvider) ["Aspas", "Baena"] "Celta de Vigo" "Villarreal").2.2
    (by decide) "Iago Aspas" (by decide)

/-! ### C5 — confidence thresholds -/

/-- C5, counterexample: `_map_to_specific_rosters` uses a threshold of 20,
not 18. Eighteen scraped names that match nothing in the dummy rosters of
two unknown teams resolve to 18 names across both sides, yet the status
is `"predicted"`, where the claim requires `Confirmed` at exactly 18. -/
theorem C5_counterexample :
    (_map_to_specific_rosters (get_team_data sampleProvider)
        ["n1 x1", "n2 x2", "n3 x3", "n4 x4", "n5 x5", "n6 x6", "n7 x7", "n8 x8", "n9 x9"]
        ["m1 y1", "m2 y2", "m3 y3", "m4 y4", "m5 y5", "m6 y6", "m7 y7", "m8 y8", "m9 y9"]
        "Equipo Uno" "Equipo Dos").count = 18 ∧
    (_map_to_specific_rosters (get_team_data sampleProvider)
        ["n1 x1", "n2 x2", "n3 x3", "n4 x4", "n5 x5", "n6 x6", "n7 x7", "n8 x8", "n9 x9"]
        ["m1 y1", "m2 y2", "m3 y3", "m4 y4", "m5 y5", "m6 y6", "m7 y7", "m8 y8", "m9 y9"]
        "Equipo Uno" "Equipo Dos").home.length +
      (_map_to_specific_rosters (get_team_data sampleProvider)
        ["n1 x1", "n2 x2", "n3 x3", "n4 x4", "n5 x5", "n6 x6", "n7 x7", "n8 x8", "n9 x9"]
        ["m1 y1", "m2 y2", "m3 y3", "m4 y4", "m5 y5", "m6 y6", "m7 y7", "m8 y8", "m9 y9"]
        "Equipo Uno" "Equipo Dos").away.length = 18 ∧
    (_map_to_specific_rosters (get_team_data sampleProvider)
        ["n1 x1", "n2 x2", "n3 x3", "n4 x4", "n5 x5", "n6 x6", "n7 x7", "n8 x8", "n9 x9"]
        ["m1 y1", "m2 y2", "m3 y3", "m4 y4", "m5 y5", "m6 y6", "m7 y7", "m8 y8", "m9 y9"]
        "Equipo Uno" "Equipo Dos").status = "predicted" := by
  decide

/-- C5, amended: `_map_to_rosters` grades `"confirmed"` exactly when the
resolved home and away lists together hold at least 18 names (so 18 is
confirmed and 17 predicted there), while `_map_to_specific_rosters` grades
`"confirmed"` exactly when its pre-dedup count — which always equals the
number of scraped names — is at least 20. -/
theorem C5_amended :
    (∀ (gtd : String → Team) (names : List String) (home_team away_team : String),
      (_map_to_rosters gtd names home_team away_team).status =
        (if 18 ≤ (_map_to_rosters gtd names home_team away_team).home.length +
                 (_map_to_rosters gtd names home_team away_team).away.length
         then "confirmed" else "predicted")) ∧
    (∀ (gtd : String → Team) (hs as : List String) (home_team away_team : String),
      (_map_to_specific_rosters gtd hs as home_team away_team).count = hs.length + as.length ∧
      (_map_to_specific_rosters gtd hs as home_team away_team).status =
        (if 20 ≤ hs.length + as.length then "confirmed" else "predicted")) := by
  constructor
  · intro gtd names home_team away_team
    simp [_map_to_rosters, length_pySorted]
  · intro gtd hs as home_team away_team
    constructor
    · simp [_map_to_specific_rosters]
    · simp [_map_to_specific_rosters]

/-! ### C1 — the `_is_fallback` flag -/

/-- The orchestrator environment with every source failing, the digest
function constantly zero and RNG state zero. -/
def envAllFailZero : Env := envAllFail (fun _ => 0) 0

/-- C1, counterexample: for a La Liga lineup request in which every
adapter returns empty, the envelope still has `_is_fallback = False` —
the scraper's no-data dict omits the flag and the orchestrator defaults it
to `False` — contradicting the claimed "all adapters empty implies
`_is_fallback == true`". -/
theorem C1_counterexample :
    pyGet (lineup_envelope envAllFailZero "La Liga") "home" = some (.pyList []) ∧
    pyGet (lineup_envelope envAllFailZero "La Liga") "away" = some (.pyList []) ∧
    pyGet (lineup_envelope envAllFailZero "La Liga") "bajas" = some (.pyList []) ∧
    pyGet (lineup_envelope envAllFailZero "La Liga") "_is_fallback" = some (.pyBool false) := by
  decide

/-- Looking up `source` through the three enrichment writes is looking it
up in the original dict. -/
theorem pyGet_source_enrichTriple (ref : PyDict) (s : RefereeStrictness) (q : ℚ) (b : Bool) :
    pyGet (pySet (pySet (pySet ref "strictness" (.pyStrict s)) "avg_cards" (.pyRat q))
      "_is_fallback" (.pyBool b)) "source" = pyGet ref "source" := by
  rw [pyGet_pySet_ne _ _ _ _ (by decide), pyGet_pySet_ne _ _ _ _ (by decide),
    pyGet_pySet_ne _ _ _ _ (by decide)]

/-- C1, amended: `_is_fallback` is true exactly when the scraper set it.
For La Liga referee envelopes that is precisely total source failure; La
Liga lineup envelopes carry `_is_fallback = False` unconditionally (even
under total failure, because the no-data dict omits the flag and the
orchestrator defaults it); the generic scraper's lineup and referee
envelopes carry `_is_fallback = True` unconditionally. -/
theorem C1_amended :
    (∀ env : Env, pyGet (lineup_envelope env "La Liga") "_is_fallback" = some (.pyBool false)) ∧
    (∀ (env : Env) (home away : String) (d : PyDate),
      pyGet (referee_envelope env home away d "La Liga") "_is_fallback" =
        some (.pyBool (LaLiga.refAllFail env.laLiga))) ∧
    (∀ env : Env,
      pyGet (lineup_envelope env "Liga Mixta (Combinada)") "_is_fallback" =
        some (.pyBool true)) ∧
    (∀ (env : Env) (home away : String) (d : PyDate),
      pyGet (referee_envelope env home away d "Liga Mixta (Combinada)") "_is_fallback" =
        some (.pyBool true)) := by
  have hLL : scraperKindFor "La Liga" = .laLiga := by decide
  have hMix : scraperKindFor "Liga Mixta (Combinada)" = .generic := by decide
  refine ⟨?_, ?_, ?_, ?_⟩
  · intro env
    rw [lineup_envelope, hLL, pyGet_lineupSetdefaults_fb]
    have hfb := (laLiga_lineup_shape env.laLiga).2.2.2
    simp only [scraperFetchLineup]
    rw [hfb]
    rfl
  · intro env home away d
    rw [referee_envelope, hLL, pyGet_refereeSetdefaults_fb]
    have hfb := (laLiga_referee_shape env.laLiga env.md5int home away d).2
    simp only [scraperFetchReferee]
    rw [hfb]
    rfl
  · intro env
    rw [lineup_envelope, hMix, pyGet_lineupSetdefaults_fb]
    simp only [scraperFetchLineup]
    rw [(generic_lineup_shape).2.2.2]
    rfl
  · intro env home away d
    rw [referee_envelope, hMix, pyGet_refereeSetdefaults_fb]
    have hfb : pyGet (Generic.fetch_referee env.rng) "_is_fallback" = some (.pyBool true) := by
      simp [Generic.fetch_referee, pyGet]
    simp only [scraperFetchReferee]
    rw [hfb]
    rfl

/-! ### C2 — determinism of the fallback referee -/

/-- C2, counterexample: the fallback referee is NOT hash-selected for
every league. Under total source failure, two Premier League calls with
identical inputs but different RNG states (the process RNG advances
between calls) return different referees — the selection there is
`random.choice`, not a stable hash of the fixture. -/
theorem C2_counterexample :
    referee_envelope (envAllFail (fun _ => 0) 0) "Arsenal" "Chelsea" ⟨"20260222"⟩
        "Premier League" ≠
      referee_envelope (envAllFail (fun _ => 0) 1) "Arsenal" "Chelsea" ⟨"20260222"⟩
        "Premier League" ∧
    pyGet (referee_envelope (envAllFail (fun _ => 0) 0) "Arsenal" "Chelsea" ⟨"20260222"⟩
        "Premier League") "name" = some (.pyStr "Michael Oliver") ∧
    pyGet (referee_envelope (envAllFail (fun _ => 0) 1) "Arsenal" "Chelsea" ⟨"20260222"⟩
        "Premier League") "name" = some (.pyStr "Anthony Taylor") := by
  refine ⟨by decide, by decide, by decide⟩

/-- C2, amended: only the La Liga scraper selects the fallback referee by
a stable hash: under total source failure the envelope is a function of
(home, away, date) and the pure digest alone — the RNG state is not
consulted, so two calls with identical inputs return the identical
referee, namely pool entry `md5(home-away-YYYYMMDD) mod 8`. The other
league scrapers and the generic scraper draw from their pools with
`random.choice` per call (see the counterexample). -/
theorem C2_amended (md5f : String → Nat) (r r' : Nat) (home away : String) (d : PyDate) :
    referee_envelope (envAllFail md5f r) home away d "La Liga" =
      referee_envelope (envAllFail md5f r') home away d "La Liga" ∧
    pyGet (referee_envelope (envAllFail md5f r) home away d "La Liga") "name" =
      some (.pyStr (LaLiga.LALIGA_REFEREE_POOL.getD
        (md5f (home ++ "-" ++ away ++ "-" ++ d.ymd) % 8) ("", 0)).1) := by
  exact ⟨rfl, rfl⟩

/-! ### C8 — cascade priority and source attribution -/

/-- C8: (1) when the first lineup adapter (FutbolFantasy) is sufficient,
the cascade returns its result outright (the later adapter is never
consulted); (2) when it is insufficient and Resultados-Futbol is
sufficient, the result is the Resultados-Futbol dict and the `source`
field names Resultados-Futbol, never FutbolFantasy; (3) likewise for the
referee cascade: with FutbolFantasy failed and Resultados-Futbol
successful, the enriched result's `source` is `"Resultados-Futbol"`. -/
theorem C8_cascade :
    (∀ e : LaLiga.Env,
      (pyTruthy (pyGet (LaLiga.fetch_lineup_futbolfantasy e) "home") ||
       pyTruthy (pyGet (LaLiga.fetch_lineup_futbolfantasy e) "away")) = true →
      LaLiga.fetch_lineup e = LaLiga.fetch_lineup_futbolfantasy e) ∧
    (∀ (e : LaLiga.Env) (hl al : List String) (lurl : String),
      (pyTruthy (pyGet (LaLiga.fetch_lineup_futbolfantasy e) "home") ||
       pyTruthy (pyGet (LaLiga.fetch_lineup_futbolfantasy e) "away")) = false →
      e.rfLineup = some (hl, al, lurl) →
      (pyTruthy (pyGet (LaLiga.fetch_lineup_rf e) "home") ||
       pyTruthy (pyGet (LaLiga.fetch_lineup_rf e) "away")) = true →
      LaLiga.fetch_lineup e = LaLiga.fetch_lineup_rf e ∧
      pyGet (LaLiga.fetch_lineup e) "source" =
        some (.pyStr ("Resultados-Futbol (" ++ lurl ++ ")"))) ∧
    (∀ (e : LaLiga.Env) (md5f : String → Nat) (home away : String) (d : PyDate) (n u : String),
      LaLiga.fetch_referee_futbolfantasy e = none →
      e.rfRef = some (n, u) →
      pyGet (LaLiga.fetch_referee e md5f home away d) "source" =
        some (.pyStr "Resultados-Futbol")) := by
  refine ⟨?_, ?_, ?_⟩
  · intro e h
    unfold LaLiga.fetch_lineup
    rw [if_pos h]
  · intro e hl al lurl h0 hrf hsuff
    have heq : LaLiga.fetch_lineup e = LaLiga.fetch_lineup_rf e := by
      unfold LaLiga.fetch_lineup
      rw [if_neg (by simp [h0]), if_pos hsuff]
    refine ⟨heq, ?_⟩
    rw [heq]
    unfold LaLiga.fetch_lineup_rf
    rw [hrf]
    simp [pyGet]
  · intro e md5f home away d n u h0 hrf
    unfold LaLiga.fetch_referee
    rw [h0]
    have hr : LaLiga.fetch_referee_rf e =
        some [("name", .pyStr n), ("source", .pyStr "Resultados-Futbol"),
              ("verification_link", .pyStr u)] := by
      unfold LaLiga.fetch_referee_rf
      rw [hrf]
      rfl
    rw [hr]
    simp only [LaLiga._enrich_referee]
    rw [pyGet_source_enrichTriple]
    simp [pyGet]

/-- An environment whose FutbolFantasy lineup parse succeeds with data. -/
def envC8a : LaLiga.Env :=
  { ffMatchUrl := some "https://www.futbolfantasy.com/partidos/x",
    ffLineupParse := some (["Pedri González"], ["Vinicius Junior"], []),
    rfLineup := none, ffRefName := none, ffRefTextVariant := false,
    rfRef := none, rfefRefName := none, besoccerRef := none }

/-- An environment where FutbolFantasy fails entirely and
Resultados-Futbol succeeds for both the lineup and the referee. -/
def envC8b : LaLiga.Env :=
  { ffMatchUrl := none, ffLineupParse := none,
    rfLineup := some (["Andrés Pérez"], ["Carlos Díaz"], "https://www.resultados-futbol.com/partido/y"),
    ffRefName := none, ffRefTextVariant := false,
    rfRef := some ("Alberola Rojas", "https://www.resultados-futbol.com/partido/y"),
    rfefRefName := none, besoccerRef := none }

/-- C8, witness: the cascade theorem applied to the two environments. -/
theorem C8_witness :
    LaLiga.fetch_lineup envC8a = LaLiga.fetch_lineup_futbolfantasy envC8a ∧
    (LaLiga.fetch_lineup envC8b = LaLiga.fetch_lineup_rf envC8b ∧
     pyGet (LaLiga.fetch_lineup envC8b) "source" =
       some (.pyStr ("Resultados-Futbol (" ++ "https://www.resultados-futbol.com/partido/y" ++ ")"))) ∧
    pyGet (LaLiga.fetch_referee envC8b (fun _ => 0) "Celta de Vigo" "Villarreal" ⟨"20260222"⟩)
        "source" = some (.pyStr "Resultados-Futbol") :=
  ⟨C8_cascade.1 envC8a (by decide),
   C8_cascade.2.1 envC8b ["Andrés Pérez"] ["Carlos Díaz"]
     "https://www.resultados-futbol.com/partido/y" (by decide) (by decide) (by decide),
   C8_cascade.2.2 envC8b (fun _ => 0) "Celta de Vigo" "Villarreal" ⟨"20260222"⟩
     "Alberola Rojas" "https://www.resultados-futbol.com/partido/y" (by decide) (by decide)⟩

/-! ### C6 — totality of the orchestrator -/

/-- C6: for every environment — including every total-failure and timeout
pattern, since the oracles range over all outcomes — and all well-formed
inputs, `fetch_lineup` and `fetch_referee` return their envelope through
`Except.ok`: no scraper branch and no logging access raises to the
caller. -/
theorem C6_total (env : Env) (home away : String) (d : PyDate) (league : String) :
    MultiSourceFetcher.fetch_lineup env home away d league =
      .ok (lineup_envelope env league) ∧
    MultiSourceFetcher.fetch_referee env home away d league =
      .ok (referee_envelope env home away d league) := by
  obtain ⟨⟨xh, hh⟩, ⟨xa, ha⟩, ⟨xb, hb⟩⟩ := scraper_lineup_lists env (scraperKindFor league)
  obtain ⟨nm, hn⟩ := scraper_referee_name env (scraperKindFor league) home away d
  have Hh : pyGet (lineup_envelope env league) "home" = some (.pyList xh) := by
    rw [lineup_envelope, pyGet_lineupSetdefaults_home, hh]
    rfl
  have Ha : pyGet (lineup_envelope env league) "away" = some (.pyList xa) := by
    rw [lineup_envelope, pyGet_lineupSetdefaults_away, ha]
    rfl
  have Hb : pyGet (lineup_envelope env league) "bajas" = some (.pyList xb) := by
    rw [lineup_envelope, pyGet_lineupSetdefaults_bajas, hb]
    rfl
  have Hs : pyGet (lineup_envelope env league) "source" =
      some ((pyGet (scraperFetchLineup env (scraperKindFor league)) "source").getD
        (.pyStr "Desconocida")) := by
    rw [lineup_envelope, pyGet_lineupSetdefaults_source]
  have Hf : pyGet (lineup_envelope env league) "_is_fallback" =
      some ((pyGet (scraperFetchLineup env (scraperKindFor league)) "_is_fallback").getD
        (.pyBool false)) := by
    rw [lineup_envelope, pyGet_lineupSetdefaults_fb]
  have Hn : pyGet (referee_envelope env home away d league) "name" = some (.pyStr nm) := by
    rw [referee_envelope, pyGet_refereeSetdefaults_name, hn]
  have Hrs : pyGet (referee_envelope env home away d league) "source" =
      some ((pyGet (scraperFetchReferee env (scraperKindFor league) home away d) "source").getD
        (.pyStr "Desconocida")) := by
    rw [referee_envelope, pyGet_refereeSetdefaults_source]
  constructor
  · simp [MultiSourceFetcher.fetch_lineup, pyIndex, pyLen, Hh, Ha, Hb, Hs, Hf,
      Bind.bind, Except.bind, Pure.pure, Except.pure]
  · simp [MultiSourceFetcher.fetch_referee, pyIndex, Hn, Hrs, Bind.bind, Except.bind,
      Pure.pure, Except.pure]

/-! ### C10 — envelope key completeness -/

/-- C10: whatever (possibly key-incomplete) dict a scraper hands back, the
lineup key-defaulting leaves all six envelope keys present and the referee
key-defaulting leaves its three keys present; consequently the envelopes
the orchestrator returns (which are exactly these defaulted dicts) carry
those keys for every environment and league. -/
theorem C10_envelope_keys :
    (∀ raw : PyDict,
      hasKey (lineupSetdefaults raw) "home" = true ∧
      hasKey (lineupSetdefaults raw) "away" = true ∧
      hasKey (lineupSetdefaults raw) "bajas" = true ∧
      hasKey (lineupSetdefaults raw) "source" = true ∧
      hasKey (lineupSetdefaults raw) "verification_link" = true ∧
      hasKey (lineupSetdefaults raw) "_is_fallback" = true) ∧
    (∀ raw : PyDict,
      hasKey (refereeSetdefaults raw) "source" = true ∧
      hasKey (refereeSetdefaults raw) "verification_link" = true ∧
      hasKey (refereeSetdefaults raw) "_is_fallback" = true) ∧
    (∀ (env : Env) (league : String),
      lineup_envelope env league =
        lineupSetdefaults (scraperFetchLineup env (scraperKindFor league))) ∧
    (∀ (env : Env) (home away : String) (d : PyDate) (league : String),
      referee_envelope env home away d league =
        refereeSetdefaults (scraperFetchReferee env (scraperKindFor league) home away d)) := by
  refine ⟨?_, ?_, fun env league => rfl, fun env home away d league => rfl⟩
  · intro raw
    refine ⟨?_, ?_, ?_, ?_, ?_, ?_⟩ <;>
      simp [hasKey, pyGet_lineupSetdefaults_home, pyGet_lineupSetdefaults_away,
        pyGet_lineupSetdefaults_bajas, pyGet_lineupSetdefaults_source,
        pyGet_lineupSetdefaults_vlink, pyGet_lineupSetdefaults_fb]
  · intro raw
    refine ⟨?_, ?_, ?_⟩ <;>
      simp [hasKey, pyGet_refereeSetdefaults_source, pyGet_refereeSetdefaults_vlink,
        pyGet_refereeSetdefaults_fb]

end Antigravity
